import Mathlib

/-!
# pixels-duckdb: function-expression binding and the join hash table

A shallow embedding of

* `src/planner/binder/expression/bind_function_expression.cpp`
  (`ExpressionBinder::BindExpression`, `BindFunction`, `BindLambdaFunction`,
  `BindAggregate`, `BindUnnest`), and
* `src/include/duckdb/execution/join_hashtable.hpp` (`JoinHashTable`, `ScanStructure`).

The binder functions are translated statement by statement.  Everything they call that
lives in another translation unit (`Catalog::GetEntry`, `BindChild`, the lambda overload of
`BindExpression`, `IterateLambdaExprChildren`, `ScalarFunction::BindScalarFunction`,
`BindMacro`, `Binder::FormatError`, `Binder::GetBindingMode`) is a field of
`Collaborators`, over an arbitrary collaborator state `σ`.  Every call of a collaborator is
recorded in a trace, so that "is not called" and "is called with" are statable.
-/

namespace duckdb

/-! ## Types used by the binder -/

/-- Identifier of a logical type (`LogicalTypeId`); only `LIST` and `SQLNULL` are inspected
by the binder code, the other enumerators stand for every remaining type. -/
inductive LogicalTypeId
  | SQLNULL
  | BOOLEAN
  | INTEGER
  | VARCHAR
  | LIST
  deriving DecidableEq

/-- A logical type; a `LIST` carries its child type. -/
inductive LogicalType
  | SQLNULL
  | BOOLEAN
  | INTEGER
  | VARCHAR
  | LIST (child : LogicalType)
  deriving DecidableEq

/-- The accessor `LogicalType::id()`. -/
def LogicalType.id : LogicalType → LogicalTypeId
  | .SQLNULL => .SQLNULL
  | .BOOLEAN => .BOOLEAN
  | .INTEGER => .INTEGER
  | .VARCHAR => .VARCHAR
  | .LIST _ => .LIST

/-- The accessor `ListType::GetChildType`; it is defined on `LIST` types only. -/
def ListType.GetChildType : LogicalType → Option LogicalType
  | .LIST child => some child
  | _ => none

/-- A `Value`; `Value(LogicalType)` constructs the NULL value of that type. -/
structure Value where
  type : LogicalType
  is_null : Bool
  deriving DecidableEq

/-- The constructor `Value(LogicalType type)`. -/
def Value.ofType (type : LogicalType) : Value :=
  { type := type, is_null := true }

/-- A bound `Expression`.  `value` is set for a `BoundConstantExpression`; `ident` stands for
the contents of any other bound node. -/
structure Expression where
  return_type : LogicalType
  alias_ : String
  value : Option Value
  ident : Nat
  deriving DecidableEq

/-- The constructor `BoundConstantExpression(Value value)`. -/
def BoundConstantExpression (value : Value) : Expression :=
  { return_type := value.type, alias_ := "", value := some value, ident := 0 }

/-- The classes of parsed expressions (`ExpressionClass`); the code distinguishes `LAMBDA`
and relies on `BOUND_EXPRESSION` after a child has been bound. -/
inductive ExpressionClass
  | CONSTANT
  | COLUMN_REF
  | FUNCTION
  | OPERATOR
  | LAMBDA
  | BOUND_EXPRESSION
  deriving DecidableEq

/-- The classes of the parsed expressions that are neither lambdas nor bound expressions. -/
inductive PlainClass
  | CONSTANT
  | COLUMN_REF
  | FUNCTION
  | OPERATOR
  deriving DecidableEq

/-- The `ExpressionClass` of a plain parsed expression. -/
def PlainClass.toExpressionClass : PlainClass → ExpressionClass
  | .CONSTANT => .CONSTANT
  | .COLUMN_REF => .COLUMN_REF
  | .FUNCTION => .FUNCTION
  | .OPERATOR => .OPERATOR

/-- A `LambdaExpression`: its alias, its parameters and (opaquely) its body. -/
structure LambdaExpression where
  alias_ : String
  params : List String
  ident : Nat
  deriving DecidableEq

/-- A `unique_ptr<ParsedExpression>` child of a function expression.  `bound` is a
`BoundExpression`, whose `expr` pointer is null once it has been moved from. -/
inductive ParsedExpression
  | lambda (l : LambdaExpression)
  | bound (alias_ : String) (expr : Option Expression)
  | plain (cls : PlainClass) (alias_ : String) (ident : Nat)
  deriving DecidableEq

/-- The accessor `ParsedExpression::GetExpressionClass()` (the field `expression_class`). -/
def ParsedExpression.GetExpressionClass : ParsedExpression → ExpressionClass
  | .lambda _ => .LAMBDA
  | .bound _ _ => .BOUND_EXPRESSION
  | .plain cls _ _ => cls.toExpressionClass

/-- A `FunctionExpression`. -/
structure FunctionExpression where
  schema : String
  function_name : String
  children : List ParsedExpression
  is_operator : Bool
  query_location : Nat
  deriving DecidableEq

/-- The types of catalog entries (`CatalogType`) a function name can resolve to. -/
inductive CatalogType
  | SCALAR_FUNCTION_ENTRY
  | MACRO_ENTRY
  | AGGREGATE_FUNCTION_ENTRY
  | TABLE_FUNCTION_ENTRY
  deriving DecidableEq

/-- A catalog entry as returned by `Catalog::GetEntry`. -/
structure CatalogEntry where
  type : CatalogType
  name : String
  ident : Nat
  deriving DecidableEq

/-- The binding modes of the binder (`BindingMode`). -/
inductive BindingMode
  | STANDARD_BINDING
  | EXTRACT_NAMES
  deriving DecidableEq

/-- A `BindResult`: a bound expression or an error message. -/
structure BindResult where
  expression : Option Expression
  error : String
  deriving DecidableEq

/-- The constructor `BindResult(string error)`. -/
def BindResult.ofError (error : String) : BindResult :=
  { expression := none, error := error }

/-- The constructor `BindResult(unique_ptr<Expression> expr)`. -/
def BindResult.ofExpression (expr : Expression) : BindResult :=
  { expression := some expr, error := "" }

/-- The method `BindResult::HasError()`. -/
def BindResult.HasError (r : BindResult) : Bool :=
  !(r.error == "")

/-- An exception that escapes from a collaborator. -/
structure ForeignException where
  kind : String
  message : String
  deriving DecidableEq

/-- How a call of one of the binder functions ends.
`BinderException msg` is a `throw BinderException(msg)` statement of
`bind_function_expression.cpp` itself; `propagated` is an exception that a collaborator
raised and that passes through uncaught; `undefined` is a downcast to a class the object
does not have, or a dereference of a null `unique_ptr` (a failed `D_ASSERT`). -/
inductive Outcome (α : Type)
  | returned (a : α)
  | BinderException (msg : String)
  | propagated (e : ForeignException)
  | undefined
  deriving DecidableEq

/-- One call of a collaborator, with the arguments it received. -/
inductive Event
  | GetEntry (schema : String) (function_name : String)
  | BindChild (child : ParsedExpression) (depth : Nat) (error : String)
  | BindLambda (lambda_expr : LambdaExpression) (depth : Nat) (list_child_type : LogicalType)
  | IterateLambdaExprChildren (children : List Expression) (list_child_type : LogicalType)
      (bound_lambda_expr : Expression)
  | BindScalarFunction (func : CatalogEntry) (children : List Expression) (is_operator : Bool)
  | BindMacro (func : CatalogEntry) (depth : Nat)
  deriving DecidableEq

/-- The functions of other translation units that `bind_function_expression.cpp` calls.
Each takes the collaborator state and returns the new one; an `Except.error` is an exception
thrown by the collaborator.  Arguments passed by reference are returned updated. -/
structure Collaborators (σ : Type) where
  /-- The mode `binder.GetBindingMode()`. -/
  GetBindingMode : σ → BindingMode
  /-- The message `binder.FormatError(function, message)`. -/
  FormatError : σ → FunctionExpression → String → String
  /-- The lookup `catalog.GetEntry(context, SCALAR_FUNCTION_ENTRY, schema, name, false, ..)`. -/
  GetEntry : σ → String → String → σ × Except ForeignException CatalogEntry
  /-- The call `BindChild(child, depth, error)`: returns the child and the error string. -/
  BindChild : σ → ParsedExpression → Nat → String →
    σ × ParsedExpression × Except ForeignException String
  /-- The call `BindExpression(lambda_expr, depth, true, list_child_type)`. -/
  BindLambda : σ → LambdaExpression → Nat → LogicalType →
    σ × LambdaExpression × Except ForeignException BindResult
  /-- The call `IterateLambdaExprChildren(children, list_child_type, bound_lambda_expr)`. -/
  IterateLambdaExprChildren : σ → List Expression → LogicalType → Expression →
    σ × Except ForeignException (List Expression × Expression)
  /-- The call `ScalarFunction::BindScalarFunction(context, func, children, error, is_operator)`:
  returns the (possibly null) result and the error string. -/
  BindScalarFunction : σ → CatalogEntry → List Expression → String → Bool →
    σ × Except ForeignException (Option Expression × String)
  /-- The call `BindMacro(function, func, depth, expr_ptr)`. -/
  BindMacro : σ → FunctionExpression → CatalogEntry → Nat →
    σ × FunctionExpression × Except ForeignException BindResult

/-- The state threaded through a binder call: the collaborators' state and the trace of the
collaborator calls made so far (oldest first). -/
structure BinderState (σ : Type) where
  world : σ
  trace : List Event

/-- What a binder call leaves behind: how it ended, the function expression (passed by
reference) and the state. -/
structure Run (σ : Type) where
  outcome : Outcome BindResult
  function : FunctionExpression
  state : BinderState σ

/-! ## Calls of the collaborators, recorded in the trace -/

section Binder

variable {σ : Type}

/-- Append an event to the trace and install the collaborators' new state. -/
def BinderState.record (s : BinderState σ) (ev : Event) (world : σ) : BinderState σ :=
  { world := world, trace := s.trace ++ [ev] }

/-- The call `catalog.GetEntry(..)`, recorded. -/
def callGetEntry (env : Collaborators σ) (s : BinderState σ) (schema function_name : String) :
    BinderState σ × Except ForeignException CatalogEntry :=
  let r := env.GetEntry s.world schema function_name
  (s.record (.GetEntry schema function_name) r.1, r.2)

/-- The call `BindChild(child, depth, error)`, recorded. -/
def callBindChild (env : Collaborators σ) (s : BinderState σ) (child : ParsedExpression)
    (depth : Nat) (error : String) :
    BinderState σ × ParsedExpression × Except ForeignException String :=
  let r := env.BindChild s.world child depth error
  (s.record (.BindChild child depth error) r.1, r.2.1, r.2.2)

/-- The call `BindExpression(lambda_expr, depth, true, list_child_type)`, recorded. -/
def callBindLambda (env : Collaborators σ) (s : BinderState σ) (lambda_expr : LambdaExpression)
    (depth : Nat) (list_child_type : LogicalType) :
    BinderState σ × LambdaExpression × Except ForeignException BindResult :=
  let r := env.BindLambda s.world lambda_expr depth list_child_type
  (s.record (.BindLambda lambda_expr depth list_child_type) r.1, r.2.1, r.2.2)

/-- The call `IterateLambdaExprChildren(children, list_child_type, bound_lambda_expr)`,
recorded. -/
def callIterateLambdaExprChildren (env : Collaborators σ) (s : BinderState σ)
    (children : List Expression) (list_child_type : LogicalType)
    (bound_lambda_expr : Expression) :
    BinderState σ × Except ForeignException (List Expression × Expression) :=
  let r := env.IterateLambdaExprChildren s.world children list_child_type bound_lambda_expr
  (s.record (.IterateLambdaExprChildren children list_child_type bound_lambda_expr) r.1, r.2)

/-- The call `ScalarFunction::BindScalarFunction(..)`, recorded. -/
def callBindScalarFunction (env : Collaborators σ) (s : BinderState σ) (func : CatalogEntry)
    (children : List Expression) (error : String) (is_operator : Bool) :
    BinderState σ × Except ForeignException (Option Expression × String) :=
  let r := env.BindScalarFunction s.world func children error is_operator
  (s.record (.BindScalarFunction func children is_operator) r.1, r.2)

/-- The call `BindMacro(function, func, depth, expr_ptr)`, recorded. -/
def callBindMacro (env : Collaborators σ) (s : BinderState σ) (function : FunctionExpression)
    (func : CatalogEntry) (depth : Nat) :
    BinderState σ × FunctionExpression × Except ForeignException BindResult :=
  let r := env.BindMacro s.world function func depth
  (s.record (.BindMacro func depth) r.1, r.2.1, r.2.2)

/-! ## bind_function_expression.cpp -/

namespace ExpressionBinder

/-- The string `ExpressionBinder::UnsupportedAggregateMessage()`. -/
def UnsupportedAggregateMessage : String :=
  "Aggregate functions are not supported here"

/-- The string `ExpressionBinder::UnsupportedUnnestMessage()`. -/
def UnsupportedUnnestMessage : String :=
  "UNNEST not supported here"

/-- The function `ExpressionBinder::BindAggregate` (lines 172-175). -/
def BindAggregate (env : Collaborators σ) (expr : FunctionExpression) (_function : CatalogEntry)
    (_depth : Nat) (s : BinderState σ) : Run σ :=
  { outcome := .returned (BindResult.ofError (env.FormatError s.world expr UnsupportedAggregateMessage)),
    function := expr, state := s }

/-- The function `ExpressionBinder::BindUnnest` (lines 177-179). -/
def BindUnnest (env : Collaborators σ) (expr : FunctionExpression) (_depth : Nat)
    (s : BinderState σ) : Run σ :=
  { outcome := .returned (BindResult.ofError (env.FormatError s.world expr UnsupportedUnnestMessage)),
    function := expr, state := s }

/-- The loop `for (i = 0; i < function.children.size(); i++) BindChild(function.children[i],
depth, error)` (lines 60-62): the children are bound left to right, the error string is
threaded through the calls, and an exception of `BindChild` ends the loop. -/
def BindChildren (env : Collaborators σ) (depth : Nat) :
    List ParsedExpression → String → BinderState σ →
      BinderState σ × List ParsedExpression × Except ForeignException String
  | [], error, s => (s, [], .ok error)
  | child :: rest, error, s =>
    match callBindChild env s child depth error with
    | (s1, child1, .error e) => (s1, child1 :: rest, .error e)
    | (s1, child1, .ok error1) =>
      match BindChildren env depth rest error1 s1 with
      | (s2, rest2, r) => (s2, child1 :: rest2, r)

/-- The loop that casts every child to `BoundExpression`, asserts `child.expr` and moves it
into `children` (lines 74-78 and 148-152).  The result is the moved expressions and the
children they were moved from; `none` when a child is not a bound expression or its `expr`
is null. -/
def ExtractChildren : List ParsedExpression → Option (List Expression × List ParsedExpression)
  | [] => some ([], [])
  | .bound alias_ (some expr) :: rest =>
    match ExtractChildren rest with
    | some (children, moved) => some (expr :: children, .bound alias_ none :: moved)
    | none => none
  | _ :: _ => none

/-- The function `ExpressionBinder::BindFunction` (lines 54-85). -/
def BindFunction (env : Collaborators σ) (function : FunctionExpression) (func : CatalogEntry)
    (depth : Nat) (s : BinderState σ) : Run σ :=
  match BindChildren env depth function.children "" s with
  | (s1, children1, .error e) =>
    { outcome := .propagated e, function := { function with children := children1 }, state := s1 }
  | (s1, children1, .ok error) =>
    let function1 := { function with children := children1 }
    if error ≠ "" then
      { outcome := .returned (BindResult.ofError error), function := function1, state := s1 }
    else if env.GetBindingMode s1.world = .EXTRACT_NAMES then
      { outcome := .returned (BindResult.ofExpression (BoundConstantExpression (Value.ofType .SQLNULL))),
        function := function1, state := s1 }
    else
      match ExtractChildren children1 with
      | none => { outcome := .undefined, function := function1, state := s1 }
      | some (children, moved) =>
        let function2 := { function1 with children := moved }
        match callBindScalarFunction env s1 func children error function.is_operator with
        | (s2, .error e) => { outcome := .propagated e, function := function2, state := s2 }
        | (s2, .ok (none, error2)) =>
          { outcome := .BinderException (env.FormatError s2.world function2 error2),
            function := function2, state := s2 }
        | (s2, .ok (some result, _)) =>
          { outcome := .returned (BindResult.ofExpression result), function := function2, state := s2 }

/-- Lines 124-136 of `BindLambdaFunction`: from the lambda expression (as the lambda binder
left it) and the result of binding it, the new second child and the new error string.
On an error the child stays; otherwise it is replaced by a `BoundExpression` that keeps the
alias, and a non-empty alias is also written to `be->expr` (`none`: `be->expr` is null). -/
def ReplaceLambda (lambda_expr : LambdaExpression) (bind_lambda_result : BindResult) :
    Option (ParsedExpression × String) :=
  if bind_lambda_result.HasError then
    some (.lambda lambda_expr, bind_lambda_result.error)
  else
    let alias_ := lambda_expr.alias_
    match bind_lambda_result.expression with
    | some expr =>
      some (.bound alias_ (some (if alias_ ≠ "" then { expr with alias_ := alias_ } else expr)), "")
    | none => if alias_ ≠ "" then none else some (.bound alias_ none, "")

/-- Lines 138-169 of `BindLambdaFunction`: what happens once the list argument and the lambda
have been bound. -/
def BindLambdaFunctionBound (env : Collaborators σ) (function : FunctionExpression)
    (func : CatalogEntry) (error : String) (list_child_type : LogicalType) (num_params : Nat)
    (s : BinderState σ) : Run σ :=
  if error ≠ "" then
    { outcome := .returned (BindResult.ofError error), function := function, state := s }
  else if env.GetBindingMode s.world = .EXTRACT_NAMES then
    { outcome := .returned (BindResult.ofExpression (BoundConstantExpression (Value.ofType .SQLNULL))),
      function := function, state := s }
  else
    match ExtractChildren function.children with
    | none => { outcome := .undefined, function := function, state := s }
    | some (children, moved) =>
      let function1 := { function with children := moved }
      match children.getLast? with
      | none => { outcome := .undefined, function := function1, state := s }
      | some bound_lambda_expr =>
        match callIterateLambdaExprChildren env s children.dropLast list_child_type
            bound_lambda_expr with
        | (s1, .error e) => { outcome := .propagated e, function := function1, state := s1 }
        | (s1, .ok (children1, bound_lambda_expr1)) =>
          let children2 :=
            children1 ++ [{ bound_lambda_expr1 with alias_ := toString num_params }]
          match callBindScalarFunction env s1 func children2 error function.is_operator with
          | (s2, .error e) => { outcome := .propagated e, function := function1, state := s2 }
          | (s2, .ok (none, error2)) =>
            { outcome := .BinderException (env.FormatError s2.world function1 error2),
              function := function1, state := s2 }
          | (s2, .ok (some result, _)) =>
            { outcome := .returned (BindResult.ofExpression result), function := function1,
              state := s2 }

/-- The function `ExpressionBinder::BindLambdaFunction` (lines 87-170). -/
def BindLambdaFunction (env : Collaborators σ) (function : FunctionExpression)
    (func : CatalogEntry) (depth : Nat) (s : BinderState σ) : Run σ :=
  if function.children.length ≠ 2 then
    { outcome := .BinderException "Invalid number of arguments, expected two (list, lambda expression)!",
      function := function, state := s }
  else
    match function.children with
    | [child0, child1] =>
      if child1.GetExpressionClass ≠ .LAMBDA then
        { outcome := .BinderException "Invalid lambda expression!", function := function, state := s }
      else
        -- bind the list parameter
        match callBindChild env s child0 depth "" with
        | (s1, child0a, .error e) =>
          { outcome := .propagated e, function := { function with children := [child0a, child1] },
            state := s1 }
        | (s1, child0a, .ok error) =>
          let function1 := { function with children := [child0a, child1] }
          if error ≠ "" then
            { outcome := .returned (BindResult.ofError error), function := function1, state := s1 }
          else
            match child0a with
            | .bound _ (some list_child_expr) =>
              if list_child_expr.return_type.id ≠ .LIST ∧
                  list_child_expr.return_type.id ≠ .SQLNULL then
                { outcome := .BinderException
                    (" Invalid LIST argument to " ++ function.function_name ++ "!"),
                  function := function1, state := s1 }
              else
                match (if list_child_expr.return_type.id ≠ .SQLNULL then
                    ListType.GetChildType list_child_expr.return_type
                  else some LogicalType.SQLNULL), child1 with
                | some list_child_type, .lambda lambda_expr =>
                  -- bind the lambda parameter
                  match callBindLambda env s1 lambda_expr depth list_child_type with
                  | (s2, lambda_expr1, .error e) =>
                    { outcome := .propagated e,
                      function := { function with children := [child0a, .lambda lambda_expr1] },
                      state := s2 }
                  | (s2, lambda_expr1, .ok bind_lambda_result) =>
                    let num_params := lambda_expr1.params.length
                    match ReplaceLambda lambda_expr1 bind_lambda_result with
                    | none =>
                      { outcome := .undefined,
                        function := { function with children := [child0a, .lambda lambda_expr1] },
                        state := s2 }
                    | some (child1a, error1) =>
                      BindLambdaFunctionBound env { function with children := [child0a, child1a] }
                        func error1 list_child_type num_params s2
                | _, _ => { outcome := .undefined, function := function1, state := s1 }
            | _ => { outcome := .undefined, function := function1, state := s1 }
    | _ => { outcome := .undefined, function := function, state := s }

/-- The function `ExpressionBinder::BindExpression(FunctionExpression &, idx_t,
unique_ptr<ParsedExpression> *)` (lines 14-52). -/
def BindExpression (env : Collaborators σ) (function : FunctionExpression) (depth : Nat)
    (s : BinderState σ) : Run σ :=
  if function.function_name = "unnest" ∨ function.function_name = "unlist" then
    -- special case, not in catalog
    BindUnnest env function depth s
  else
    match callGetEntry env s function.schema function.function_name with
    | (s1, .error e) => { outcome := .propagated e, function := function, state := s1 }
    | (s1, .ok func) =>
      match func.type with
      | .SCALAR_FUNCTION_ENTRY =>
        -- check for lambda parameters, ignore ->> operator (JSON extension)
        if function.function_name ≠ "->>" ∧
            function.children.any (fun child => child.GetExpressionClass = .LAMBDA) then
          BindLambdaFunction env function func depth s1
        else
          -- other scalar function
          BindFunction env function func depth s1
      | .MACRO_ENTRY =>
        match callBindMacro env s1 function func depth with
        | (s2, function1, .error e) => { outcome := .propagated e, function := function1, state := s2 }
        | (s2, function1, .ok result) => { outcome := .returned result, function := function1, state := s2 }
      | _ => BindAggregate env function func depth s1

end ExpressionBinder

end Binder

/-! ## join_hashtable.hpp

The header declares `JoinHashTable` and `ScanStructure` and defines `Count()` inline; the
bodies of `Build`, `Finalize`, `Probe` and of the `Next*Join` producers are in a translation
unit that is not part of the sources at hand, so they are modelled from the specification.
A chain (the singly linked list threaded through the rows' next-pointers) is represented by
the list of the addresses of its rows, head first; the null pointer is the empty list. -/

/-- Modelled from the spec: the comparison kinds of a join condition (`ExpressionType`, the
type of the field `predicates`), declared outside the sources. -/
inductive ExpressionType
  | COMPARE_EQUAL
  | COMPARE_NOTEQUAL
  | COMPARE_LESSTHAN
  | COMPARE_GREATERTHAN
  | COMPARE_LESSTHANOREQUALTO
  | COMPARE_GREATERTHANOREQUALTO
  deriving DecidableEq

/-- Modelled from the spec: a `JoinCondition`, declared outside the sources: the comparison
kind and whether NULL equals NULL. -/
structure JoinCondition where
  comparison : ExpressionType
  null_values_are_equal : Bool
  deriving DecidableEq

/-- Modelled from the spec: the join types served by the hash table (`JoinType`), declared
outside the sources. -/
inductive JoinType
  | INNER
  | LEFT
  | SEMI
  | ANTI
  | MARK
  | SINGLE
  deriving DecidableEq

/-- Modelled from the spec: a key value, an integer or NULL. -/
abbrev KeyValue := Option Int

/-- Modelled from the spec: a row of a `DataChunk` of keys, one value for each join
condition. -/
abbrev KeyRow := List KeyValue

/-- Modelled from the spec: a row of a payload `DataChunk`, variable-length (text) column
values. -/
abbrev PayloadRow := List String

/-- Modelled from the spec: a build row as stored in the block collection; its next-pointer
is represented by the chains of the directory. -/
structure BuildRow where
  keys : KeyRow
  payload : PayloadRow
  deriving DecidableEq

/-- Modelled from the spec: the class `RowDataCollection` (the Row Block Store) is not part
of the sources; the spec describes it as append-only storage with a row count. -/
structure RowDataCollection (α : Type) where
  count : Nat
  entries : List α
  deriving DecidableEq

/-- Modelled from the spec: appending entries to a `RowDataCollection`, which is not part of
the sources. -/
def RowDataCollection.Append {α : Type} (c : RowDataCollection α) (new_entries : List α) :
    RowDataCollection α :=
  { count := c.count + new_entries.length, entries := c.entries ++ new_entries }

/-- The data members of `JoinHashTable` (join_hashtable.hpp, lines 158-231 and 290-293) that
the build / finalize / probe cycle and the size accessors read or write.  `hash_map` is the
Hash Directory: one chain for each slot. -/
structure JoinHashTable where
  conditions : List JoinCondition
  join_type : JoinType
  finalized : Bool
  has_null : Bool
  bitmask : Nat
  block_collection : RowDataCollection BuildRow
  string_heap : RowDataCollection String
  hash_map : List (List Nat)
  swizzled_block_collection : RowDataCollection BuildRow
  swizzled_string_heap : RowDataCollection String
  deriving DecidableEq

/-- The per-probe cursor `JoinHashTable::ScanStructure` (join_hashtable.hpp, lines 76-125):
`pointers` holds the current chain position of every probe row, `sel_vector` the probe rows
that are still active, `count` their number. -/
structure ScanStructure where
  pointers : List (List Nat)
  count : Nat
  sel_vector : List Nat
  found_match : List Bool
  finished : Bool
  deriving DecidableEq

/-- The value of a natural number as an `idx_t` (`uint64_t`): unsigned arithmetic wraps
around at 2^64. -/
def idx_t (n : Nat) : Nat :=
  n % 2 ^ 64

/-- The constant `sizeof(data_ptr_t)` on a 64-bit target; `data_ptr_t` is a pointer type. -/
def sizeof_data_ptr_t : Nat :=
  8

/-- The failures of the hash table operations. -/
inductive JoinError
  | ContractViolation (what : String)
  deriving DecidableEq

namespace JoinHashTable

/-- The method `JoinHashTable::Count()` (join_hashtable.hpp, lines 150-152). -/
def Count (ht : JoinHashTable) : Nat :=
  ht.block_collection.count

/-- The method `JoinHashTable::SwizzledCount()` (join_hashtable.hpp, lines 246-248). -/
def SwizzledCount (ht : JoinHashTable) : Nat :=
  ht.swizzled_block_collection.count

/-- The method `JoinHashTable::SizeInBytes()` (join_hashtable.hpp, lines 250-252):
`block_collection->SizeInBytes() + string_heap->SizeInBytes() + Count() * 3 *
sizeof(data_ptr_t)`, every operation in `idx_t`.  The method
`RowDataCollection::SizeInBytes()` is declared outside the sources: `rowBytes` is its value
on a collection of rows, `heapBytes` its value on a string heap. -/
def SizeInBytes (rowBytes : RowDataCollection BuildRow → Nat)
    (heapBytes : RowDataCollection String → Nat) (ht : JoinHashTable) : Nat :=
  idx_t (idx_t (rowBytes ht.block_collection + heapBytes ht.string_heap) +
    idx_t (idx_t (ht.Count * 3) * sizeof_data_ptr_t))

/-- The method `JoinHashTable::SwizzledSize()` (join_hashtable.hpp, lines 254-256):
`swizzled_block_collection->SizeInBytes() + swizzled_string_heap->SizeInBytes()`. -/
def SwizzledSize (rowBytes : RowDataCollection BuildRow → Nat)
    (heapBytes : RowDataCollection String → Nat) (ht : JoinHashTable) : Nat :=
  idx_t (rowBytes ht.swizzled_block_collection + heapBytes ht.swizzled_string_heap)

/-- Modelled from the spec: the constructor of `JoinHashTable`, whose body is not part of the
sources; a new table is buildable and holds no rows. -/
def create (conditions : List JoinCondition) (join_type : JoinType) : JoinHashTable :=
  { conditions := conditions, join_type := join_type, finalized := false, has_null := false,
    bitmask := 0, block_collection := { count := 0, entries := [] },
    string_heap := { count := 0, entries := [] }, hash_map := [],
    swizzled_block_collection := { count := 0, entries := [] },
    swizzled_string_heap := { count := 0, entries := [] } }

/-- Modelled from the spec: whether a key row has a NULL in a slot whose condition does not
treat NULL as comparable (the null handling of section 4.1). -/
def HasIncomparableNull (conditions : List JoinCondition) (keys : KeyRow) : Bool :=
  (keys.zip conditions).any (fun kc => kc.1.isNone && !kc.2.null_values_are_equal)

/-- Modelled from the spec: the equality-key columns of a key row, the only ones that are
hashed. -/
def EqualityKeys (conditions : List JoinCondition) (keys : KeyRow) : KeyRow :=
  ((keys.zip conditions).filter (fun kc => kc.2.comparison = .COMPARE_EQUAL)).map Prod.fst

/-- Modelled from the spec: the rows that one `Build` call serializes, one for every row of
the input chunk, with the keys of the same position. -/
def SerializeRows (keys : List KeyRow) (input : List PayloadRow) : List BuildRow :=
  input.enum.map (fun ip => { keys := keys.getD ip.1 [], payload := ip.2 })

/-- Modelled from the spec: `JoinHashTable::Build`, whose body is not part of the sources.
It appends one serialized row for every input row to the block collection and the
variable-length data to the string heap, and records NULL keys; on a finalized table it
fails fast and changes nothing. -/
def Build (keys : List KeyRow) (input : List PayloadRow) (ht : JoinHashTable) :
    Except JoinError Unit × JoinHashTable :=
  if ht.finalized then
    (.error (.ContractViolation "Build called after Finalize"), ht)
  else
    (.ok (),
      { ht with
        block_collection := ht.block_collection.Append (SerializeRows keys input)
        string_heap := ht.string_heap.Append input.flatten
        has_null := ht.has_null ||
          ((SerializeRows keys input).any (fun r => HasIncomparableNull ht.conditions r.keys)) })

/-- Modelled from the spec: the smallest power of two that is at least `n`, by doubling. -/
def NextPowerOfTwoFrom : Nat → Nat → Nat → Nat
  | 0, p, _ => p
  | fuel + 1, p, n => if n ≤ p then p else NextPowerOfTwoFrom fuel (2 * p) n

/-- Modelled from the spec: the capacity of the Hash Directory, a power of two that is at
least `count / load_factor`; the spec leaves the load factor open, one half is used. -/
def Capacity (count : Nat) : Nat :=
  NextPowerOfTwoFrom (2 * count) 1 (2 * count)

/-- Modelled from the spec: `JoinHashTable::InsertHashes`, whose body is not part of the
sources.  The rows are visited in insertion order, `address` being the address of the first
one; each address is put at the head of the chain of its bucket. -/
def InsertHashes (hash : KeyRow → Nat) (conditions : List JoinCondition) (bitmask : Nat) :
    List BuildRow → Nat → List (List Nat) → List (List Nat)
  | [], _, hash_map => hash_map
  | row :: rest, address, hash_map =>
    let slot := hash (EqualityKeys conditions row.keys) &&& bitmask
    InsertHashes hash conditions bitmask rest (address + 1)
      (hash_map.set slot (address :: hash_map.getD slot []))

/-- Modelled from the spec: `JoinHashTable::Finalize`, whose body is not part of the sources.
It sizes the directory from `Count()`, inserts every row and sets `finalized`. -/
def Finalize (hash : KeyRow → Nat) (ht : JoinHashTable) : JoinHashTable :=
  let capacity := Capacity ht.Count
  let bitmask := capacity - 1
  { ht with
    bitmask := bitmask
    hash_map := InsertHashes hash ht.conditions bitmask ht.block_collection.entries 0
      (List.replicate capacity [])
    finalized := true }

/-- Modelled from the spec: `JoinHashTable::Probe`, whose body is not part of the sources.
Every probe row gets the chain of its bucket as initial pointer; the rows with an empty
bucket, and under non-mark semantics those with an incomparable NULL key, are not selected.
On a table that is not finalized it fails fast.  The table itself is only read. -/
def Probe (hash : KeyRow → Nat) (keys : List KeyRow) (ht : JoinHashTable) :
    Except JoinError ScanStructure × JoinHashTable :=
  if !ht.finalized then
    (.error (.ContractViolation "Probe called before Finalize"), ht)
  else
    let pointers :=
      keys.map (fun k => ht.hash_map.getD (hash (EqualityKeys ht.conditions k) &&& ht.bitmask) [])
    let sel_vector := (List.range keys.length).filter (fun i =>
      !(pointers.getD i []).isEmpty &&
        (ht.join_type = .MARK || !HasIncomparableNull ht.conditions (keys.getD i [])))
    (.ok { pointers := pointers, count := sel_vector.length, sel_vector := sel_vector,
           found_match := List.replicate keys.length false, finished := false },
      ht)

end JoinHashTable

/-- Modelled from the spec: whether a comparison kind holds between two integers. -/
def ExpressionType.Holds : ExpressionType → Int → Int → Bool
  | .COMPARE_EQUAL, a, b => a = b
  | .COMPARE_NOTEQUAL, a, b => a ≠ b
  | .COMPARE_LESSTHAN, a, b => a < b
  | .COMPARE_GREATERTHAN, a, b => a > b
  | .COMPARE_LESSTHANOREQUALTO, a, b => a ≤ b
  | .COMPARE_GREATERTHANOREQUALTO, a, b => a ≥ b

/-- Modelled from the spec: whether a join condition holds between a probe key and a build
key; two NULLs compare equal only under NULL-equals-NULL semantics, a single NULL never
matches. -/
def JoinCondition.Matches (c : JoinCondition) : KeyValue → KeyValue → Bool
  | some a, some b => c.comparison.Holds a b
  | none, none => c.null_values_are_equal
  | _, _ => false

namespace ScanStructure

/-- Modelled from the spec: whether the full condition key tuple of a probe row matches the
build row at an address (the comparison of `ResolvePredicates`, whose body is not part of the
sources). -/
def RowMatches (ht : JoinHashTable) (probe_keys : KeyRow) (address : Nat) : Bool :=
  match ht.block_collection.entries.get? address with
  | some row =>
    ((ht.conditions.zip (probe_keys.zip row.keys)).all
      (fun ckk => ckk.1.Matches ckk.2.1 ckk.2.2))
  | none => false

/-- Modelled from the spec: `ScanStructure::ScanKeyMatches`, whose body is not part of the
sources.  It resolves the matches of the entire probe batch into `found_match`: an active
probe row has found a match when some row of its chain matches; afterwards no row is
active. -/
def ScanKeyMatches (ht : JoinHashTable) (keys : List KeyRow) (ss : ScanStructure) :
    ScanStructure :=
  { ss with
    found_match := (List.range keys.length).map (fun i =>
      ss.found_match.getD i false ||
        (decide (i ∈ ss.sel_vector) &&
          (ss.pointers.getD i []).any (fun address => RowMatches ht (keys.getD i []) address)))
    pointers := ss.pointers.map (fun _ => [])
    sel_vector := []
    count := 0 }

/-- Modelled from the spec: the selection vector that `NextSemiOrAntiJoin<MATCH>` creates,
the positions `i < keys.size()` with `found_match[i] == MATCH`. -/
def MatchSelection (MATCH : Bool) (keys : List KeyRow) (ss : ScanStructure) : List Nat :=
  (List.range keys.length).filter (fun i => ss.found_match.getD i false = MATCH)

/-- Modelled from the spec: `ScanStructure::NextSemiOrAntiJoin<MATCH>`, whose body is not
part of the sources; the result is the slice of the left chunk by the selection vector. -/
def NextSemiOrAntiJoin {ρ : Type} (MATCH : Bool) (keys : List KeyRow) (left : List ρ)
    (ss : ScanStructure) : List ρ :=
  (MatchSelection MATCH keys ss).filterMap (fun i => left.get? i)

/-- Modelled from the spec: `ScanStructure::NextSemiJoin`: scan for key matches, then return
the probe rows with a match. -/
def NextSemiJoin {ρ : Type} (ht : JoinHashTable) (keys : List KeyRow) (left : List ρ)
    (ss : ScanStructure) : ScanStructure × List ρ :=
  let ss1 := ScanKeyMatches ht keys ss
  ({ ss1 with finished := true }, NextSemiOrAntiJoin true keys left ss1)

/-- Modelled from the spec: `ScanStructure::NextAntiJoin`: scan for key matches, then return
the probe rows without a match. -/
def NextAntiJoin {ρ : Type} (ht : JoinHashTable) (keys : List KeyRow) (left : List ρ)
    (ss : ScanStructure) : ScanStructure × List ρ :=
  let ss1 := ScanKeyMatches ht keys ss
  ({ ss1 with finished := true }, NextSemiOrAntiJoin false keys left ss1)

end ScanStructure

/-- The calls a driver makes on one join hash table. -/
inductive JoinCall
  | Build (keys : List KeyRow) (input : List PayloadRow)
  | Finalize
  | Probe (keys : List KeyRow)

/-- The table after one call; a call that fails leaves the table as its operation left it. -/
def JoinCall.Apply (hash : KeyRow → Nat) (ht : JoinHashTable) : JoinCall → JoinHashTable
  | .Build keys input => (ht.Build keys input).2
  | .Finalize => ht.Finalize hash
  | .Probe keys => (ht.Probe hash keys).2

/-- The table after a sequence of calls, first call first. -/
def JoinCall.Run (hash : KeyRow → Nat) (ht : JoinHashTable) (calls : List JoinCall) :
    JoinHashTable :=
  calls.foldl (JoinCall.Apply hash) ht

/-- The table after a sequence of `Build` calls, first call first, together with whether
every call succeeded. -/
def BuildAll (ht : JoinHashTable) : List (List KeyRow × List PayloadRow) → Bool × JoinHashTable
  | [] => (true, ht)
  | batch :: rest =>
    match ht.Build batch.1 batch.2 with
    | (.ok _, ht1) => BuildAll ht1 rest
    | (.error _, ht1) => (false, (BuildAll ht1 rest).2)

end duckdb

namespace duckdb

/-- Whether an event is a call of `BindChild`. -/
def Event.IsBindChild : Event → Bool
  | .BindChild _ _ _ => true
  | _ => false

/-- Whether an event is a call of `ScalarFunction::BindScalarFunction` (overload
resolution). -/
def Event.IsBindScalarFunction : Event → Bool
  | .BindScalarFunction _ _ _ => true
  | _ => false

end duckdb

/-! ## Concrete inputs -/

namespace duckdb

/-- Collaborators over a trivial state: every function name resolves to a scalar function,
a constant child binds to an INTEGER expression, an operator child to a LIST(INTEGER)
expression, a column reference fails to bind, a lambda binds to an expression of the child
type, and overload resolution finds no function. -/
def exampleCollaborators : Collaborators Unit where
  GetBindingMode := fun _ => .STANDARD_BINDING
  FormatError := fun _ _ message => message
  GetEntry := fun _ _ function_name =>
    ((), .ok { type := .SCALAR_FUNCTION_ENTRY, name := function_name, ident := 0 })
  BindChild := fun _ child _ error =>
    match child with
    | .plain .CONSTANT alias_ ident =>
      ((), .bound alias_
        (some { return_type := .INTEGER, alias_ := alias_, value := none, ident := ident }),
        .ok error)
    | .plain .OPERATOR alias_ ident =>
      ((), .bound alias_
        (some { return_type := .LIST .INTEGER, alias_ := alias_, value := none, ident := ident }),
        .ok error)
    | .plain .COLUMN_REF _ _ =>
      ((), child, .ok (if error = "" then "column not found" else error))
    | _ => ((), child, .ok error)
  BindLambda := fun _ lambda_expr _ list_child_type =>
    ((), lambda_expr, .ok (BindResult.ofExpression
      { return_type := list_child_type, alias_ := "", value := none, ident := lambda_expr.ident }))
  IterateLambdaExprChildren := fun _ children _ bound_lambda_expr =>
    ((), .ok (children, bound_lambda_expr))
  BindScalarFunction := fun _ _ _ _ _ => ((), .ok (none, "No function matches"))
  BindMacro := fun _ function _ _ => ((), function, .ok (BindResult.ofError "macro"))

/-- The same collaborators in binding mode EXTRACT_NAMES. -/
def exampleExtractNames : Collaborators Unit :=
  { exampleCollaborators with GetBindingMode := fun _ => .EXTRACT_NAMES }

/-- The state before a call: no collaborator has been called. -/
def exampleState : BinderState Unit :=
  { world := (), trace := [] }

/-- The catalog entry the example catalog returns for `list_transform`. -/
def exampleEntry : CatalogEntry :=
  { type := .SCALAR_FUNCTION_ENTRY, name := "list_transform", ident := 0 }

/-- The lambda `x -> x`. -/
def exampleLambda : LambdaExpression :=
  { alias_ := "", params := ["x"], ident := 7 }

/-- A call of the given name with the given children. -/
def exampleCall (function_name : String) (children : List ParsedExpression) :
    FunctionExpression :=
  { schema := "main", function_name := function_name, children := children,
    is_operator := false, query_location := 0 }

/-- A hash function for key rows: the sum of the absolute values of the keys. -/
def exampleHash : KeyRow → Nat :=
  fun keys => (keys.map (fun v => (v.getD 0).natAbs)).sum

/-- The table built from the rows (1, "a") and (1, "b") under one equality condition, before
it is finalized. -/
def exampleBuilt : JoinHashTable :=
  ((JoinHashTable.create [{ comparison := .COMPARE_EQUAL, null_values_are_equal := false }]
    .SEMI).Build [[some 1], [some 1]] [["a"], ["b"]]).2

/-- The table built from the rows (1, "a") and (1, "b"), finalized. -/
def exampleTable : JoinHashTable :=
  exampleBuilt.Finalize exampleHash

/-- A byte size for collections of rows: 24 bytes for each stored row. -/
def exampleRowBytes : RowDataCollection BuildRow → Nat :=
  fun c => c.entries.length * 24

/-- A byte size for string heaps: the number of bytes of the stored strings. -/
def exampleHeapBytes : RowDataCollection String → Nat :=
  fun c => (c.entries.map String.length).sum

/-- The scan structure that probing `exampleTable` with the batch {1} yields. -/
def exampleScan : ScanStructure :=
  { pointers := [[1, 0]], count := 1, sel_vector := [0], found_match := [false],
    finished := false }

end duckdb

/-! ## Theorems about the join hash table -/

namespace duckdb

open JoinHashTable ScanStructure

theorem SerializeRows_length (keys : List KeyRow) (input : List PayloadRow) :
    (SerializeRows keys input).length = input.length := by
  simp [SerializeRows]

theorem Build_of_not_finalized (keys : List KeyRow) (input : List PayloadRow)
    (ht : JoinHashTable) (h : ht.finalized = false) :
    (ht.Build keys input).1 = .ok () ∧ (ht.Build keys input).2.finalized = false ∧
      (ht.Build keys input).2.Count = ht.Count + input.length := by
  simp [Build, h, Count, RowDataCollection.Append, SerializeRows_length]

theorem Build_of_finalized (keys : List KeyRow) (input : List PayloadRow)
    (ht : JoinHashTable) (h : ht.finalized = true) :
    ht.Build keys input = (.error (.ContractViolation "Build called after Finalize"), ht) := by
  simp [Build, h]

theorem BuildAll_of_not_finalized (batches : List (List KeyRow × List PayloadRow)) :
    ∀ ht : JoinHashTable, ht.finalized = false →
      (BuildAll ht batches).1 = true ∧ (BuildAll ht batches).2.finalized = false ∧
        (BuildAll ht batches).2.Count = ht.Count + (batches.map (fun b => b.2.length)).sum := by
  induction batches with
  | nil => intro ht h; simp [BuildAll, h]
  | cons batch rest ih =>
    intro ht h
    obtain ⟨h1, h2, h3⟩ := Build_of_not_finalized batch.1 batch.2 ht h
    have hb : ht.Build batch.1 batch.2 = (.ok (), (ht.Build batch.1 batch.2).2) := by
      rw [← h1]
    obtain ⟨i1, i2, i3⟩ := ih _ h2
    rw [BuildAll, hb]
    simp only [List.map_cons, List.sum_cons]
    refine ⟨i1, i2, ?_⟩
    rw [i3, h3]; omega

theorem Finalize_Finalize (hash : KeyRow → Nat) (ht : JoinHashTable) :
    (ht.Finalize hash).Finalize hash = ht.Finalize hash := by
  simp [Finalize, Count]

theorem Probe_table (hash : KeyRow → Nat) (keys : List KeyRow) (ht : JoinHashTable) :
    (ht.Probe hash keys).2 = ht := by
  unfold Probe
  split <;> rfl

theorem Run_Finalize (hash : KeyRow → Nat) (ht0 : JoinHashTable) (calls : List JoinCall) :
    JoinCall.Run hash (ht0.Finalize hash) calls = ht0.Finalize hash := by
  induction calls with
  | nil => rfl
  | cons call rest ih =>
    have hstep : JoinCall.Apply hash (ht0.Finalize hash) call = ht0.Finalize hash := by
      cases call with
      | Build keys input =>
        have hf : (ht0.Finalize hash).finalized = true := rfl
        simp [JoinCall.Apply, Build_of_finalized _ _ _ hf]
      | Finalize => exact Finalize_Finalize hash ht0
      | Probe keys => exact Probe_table hash keys _
    unfold JoinCall.Run at ih ⊢
    rw [List.foldl_cons, hstep]
    exact ih

theorem filterMap_get?_range {ρ : Type} (left : List ρ) :
    (List.range left.length).filterMap (fun i => left.get? i) = left := by
  induction left with
  | nil => rfl
  | cons a l ih =>
    rw [List.length_cons, List.range_succ_eq_map, List.filterMap_cons]
    simp only [List.get?_cons_zero, List.filterMap_map]
    congr 1

/-- Claim C1.  On a freshly constructed join hash table every call of a sequence of `Build`
calls succeeds and afterwards `Count()` is the sum of the row counts of the input chunks;
on any table, `Finalize` and `Probe` leave `Count()` as it was. -/
theorem C1_count_is_sum_of_build_row_counts (hash : KeyRow → Nat)
    (conditions : List JoinCondition) (join_type : JoinType)
    (batches : List (List KeyRow × List PayloadRow)) (ht : JoinHashTable)
    (probe_keys : List KeyRow) :
    (BuildAll (JoinHashTable.create conditions join_type) batches).1 = true ∧
      (BuildAll (JoinHashTable.create conditions join_type) batches).2.Count =
        (batches.map (fun b => b.2.length)).sum ∧
      (ht.Finalize hash).Count = ht.Count ∧
      (ht.Probe hash probe_keys).2.Count = ht.Count := by
  obtain ⟨h1, _, h3⟩ :=
    BuildAll_of_not_finalized batches (JoinHashTable.create conditions join_type) rfl
  refine ⟨h1, ?_, rfl, ?_⟩
  · rw [h3]; simp [Count, JoinHashTable.create]
  · rw [Probe_table]

/-- Claim C4.  On a table whose `finalized` flag is set, `Build` fails with a contract
violation and leaves the whole table (directory and stored rows included) as it was; and
after `Finalize`, no sequence of `Build`, `Finalize` and `Probe` calls changes the table. -/
theorem C4_build_after_finalize_fails (hash : KeyRow → Nat) (ht ht0 : JoinHashTable)
    (keys : List KeyRow) (input : List PayloadRow) (calls : List JoinCall)
    (hfin : ht.finalized = true) :
    (ht.Build keys input).1 = .error (.ContractViolation "Build called after Finalize") ∧
      (ht.Build keys input).2 = ht ∧
      (ht.Build keys input).2.hash_map = ht.hash_map ∧
      (ht.Build keys input).2.block_collection = ht.block_collection ∧
      (ht0.Finalize hash).finalized = true ∧
      JoinCall.Run hash (ht0.Finalize hash) calls = ht0.Finalize hash := by
  rw [Build_of_finalized keys input ht hfin]
  exact ⟨rfl, rfl, rfl, rfl, rfl, Run_Finalize hash ht0 calls⟩

/-- Claim C5.  On a finalized table, probing a batch yields a scan structure, and after
`ScanKeyMatches` the positions selected by `NextSemiOrAntiJoin<true>` and by
`NextSemiOrAntiJoin<false>` are positions of the batch, are each free of duplicates, and every
position of the batch is in exactly one of the two selections; the rows returned by the semi
join followed by those returned by the anti join are a permutation of the probe batch. -/
theorem C5_semi_anti_complementary {ρ : Type} (hash : KeyRow → Nat) (ht : JoinHashTable)
    (keys : List KeyRow) (left : List ρ) (hfin : ht.finalized = true)
    (hlen : keys.length = left.length) :
    ∃ ss : ScanStructure, (ht.Probe hash keys).1 = .ok ss ∧
      (∀ i, i ∈ MatchSelection true keys (ScanKeyMatches ht keys ss) → i < left.length) ∧
      (∀ i, i ∈ MatchSelection false keys (ScanKeyMatches ht keys ss) → i < left.length) ∧
      (∀ i, i < left.length →
        (i ∈ MatchSelection true keys (ScanKeyMatches ht keys ss) ↔
          i ∉ MatchSelection false keys (ScanKeyMatches ht keys ss))) ∧
      (MatchSelection true keys (ScanKeyMatches ht keys ss)).Nodup ∧
      (MatchSelection false keys (ScanKeyMatches ht keys ss)).Nodup ∧
      ((NextSemiJoin ht keys left ss).2 ++ (NextAntiJoin ht keys left ss).2).Perm left := by
  have hprobe : ∃ ss : ScanStructure, (ht.Probe hash keys).1 = .ok ss := by
    simp [Probe, hfin]
  obtain ⟨ss, hss⟩ := hprobe
  refine ⟨ss, hss, ?_, ?_, ?_, ?_, ?_, ?_⟩
  · intro i hi
    simp only [MatchSelection, List.mem_filter, List.mem_range] at hi
    omega
  · intro i hi
    simp only [MatchSelection, List.mem_filter, List.mem_range] at hi
    omega
  · intro i hi
    simp only [MatchSelection, List.mem_filter, List.mem_range, hlen, hi, true_and,
      decide_eq_true_eq]
    cases (ScanKeyMatches ht keys ss).found_match.getD i false <;> simp
  · exact (List.nodup_range _).filter _
  · exact (List.nodup_range _).filter _
  · simp only [NextSemiJoin, NextAntiJoin, NextSemiOrAntiJoin, MatchSelection]
    rw [← List.filterMap_append]
    have hperm : ((List.range keys.length).filter
          (fun i => (ScanKeyMatches ht keys ss).found_match.getD i false = true) ++
        (List.range keys.length).filter
          (fun i => (ScanKeyMatches ht keys ss).found_match.getD i false = false)).Perm
        (List.range keys.length) := by
      have h := List.filter_append_perm
        (fun i => decide ((ScanKeyMatches ht keys ss).found_match.getD i false = true))
        (List.range keys.length)
      have heq : (fun i => !decide ((ScanKeyMatches ht keys ss).found_match.getD i false = true))
          = (fun i => decide ((ScanKeyMatches ht keys ss).found_match.getD i false = false)) := by
        funext i
        cases (ScanKeyMatches ht keys ss).found_match.getD i false <;> simp
      rw [heq] at h
      exact h
    have h2 := hperm.filterMap (fun i => left.get? i)
    rw [hlen, filterMap_get?_range] at h2
    rw [hlen]
    exact h2

end duckdb

namespace duckdb

open JoinHashTable ScanStructure

/-- Witness of C4: the example table is finalized; a further `Build` fails and changes
nothing, and so does any sequence of calls. -/
theorem C4_build_after_finalize_fails_witness :
    exampleTable.finalized = true ∧
      (exampleTable.Build [[some 2]] [["c"]]).1 =
        .error (.ContractViolation "Build called after Finalize") ∧
      (exampleTable.Build [[some 2]] [["c"]]).2 = exampleTable ∧
      JoinCall.Run exampleHash (exampleBuilt.Finalize exampleHash)
        [.Build [[some 2]] [["c"]], .Probe [[some 1]], .Finalize] =
          exampleBuilt.Finalize exampleHash :=
  have h := C4_build_after_finalize_fails exampleHash exampleTable exampleBuilt [[some 2]]
    [["c"]] [.Build [[some 2]] [["c"]], .Probe [[some 1]], .Finalize] rfl
  ⟨rfl, h.1, h.2.1, h.2.2.2.2.2⟩

/-- Witness of C5: build side {(1, "a"), (1, "b")}, probe batch {1}: the semi join returns the
probe row, the anti join returns nothing. -/
theorem C5_semi_anti_complementary_witness :
    exampleTable.finalized = true ∧
      (exampleTable.Probe exampleHash [[some 1]]).1 = .ok exampleScan ∧
      (NextSemiJoin exampleTable [[some 1]] [[some (1 : Int)]] exampleScan).2 = [[some 1]] ∧
      (NextAntiJoin exampleTable [[some 1]] [[some (1 : Int)]] exampleScan).2 = [] ∧
      ∃ ss : ScanStructure, (exampleTable.Probe exampleHash [[some 1]]).1 = .ok ss ∧
        ((NextSemiJoin exampleTable [[some 1]] [[some (1 : Int)]] ss).2 ++
          (NextAntiJoin exampleTable [[some 1]] [[some (1 : Int)]] ss).2).Perm [[some 1]] :=
  have h := C5_semi_anti_complementary exampleHash exampleTable [[some 1]] [[some (1 : Int)]]
    rfl rfl
  ⟨rfl, rfl, by decide, by decide,
    h.imp (fun _ hss => ⟨hss.1, hss.2.2.2.2.2.2⟩)⟩

end duckdb

namespace duckdb

open JoinHashTable

/-- Claim C11.  For every table, `SizeInBytes()` is the sum of the byte sizes of the block
collection and of the string heap and of `Count() * 3 * sizeof(data_ptr_t)`, that is 24 bytes
for each row, reduced modulo 2^64.  When that sum is below 2^64, `SizeInBytes()` is at least
the storage size and equals it exactly when `Count()` is 0; and of two tables with the same
storage sizes the one with the smaller `Count()` has the smaller or equal `SizeInBytes()`.
`SwizzledSize()` is the sum of the byte sizes of the two swizzled collections modulo 2^64, so
it is determined by these two collections alone. -/
theorem C11_size_in_bytes (rowBytes : RowDataCollection BuildRow → Nat)
    (heapBytes : RowDataCollection String → Nat) (ht ht2 : JoinHashTable) :
    ht.SizeInBytes rowBytes heapBytes =
        (rowBytes ht.block_collection + heapBytes ht.string_heap +
          ht.Count * 3 * sizeof_data_ptr_t) % 2 ^ 64 ∧
      ht.SizeInBytes rowBytes heapBytes =
        (rowBytes ht.block_collection + heapBytes ht.string_heap + 24 * ht.Count) % 2 ^ 64 ∧
      (rowBytes ht.block_collection + heapBytes ht.string_heap + 24 * ht.Count < 2 ^ 64 →
        ht.SizeInBytes rowBytes heapBytes =
            rowBytes ht.block_collection + heapBytes ht.string_heap + 24 * ht.Count ∧
          rowBytes ht.block_collection + heapBytes ht.string_heap ≤
            ht.SizeInBytes rowBytes heapBytes ∧
          (ht.SizeInBytes rowBytes heapBytes =
              rowBytes ht.block_collection + heapBytes ht.string_heap ↔ ht.Count = 0)) ∧
      (rowBytes ht2.block_collection = rowBytes ht.block_collection →
        heapBytes ht2.string_heap = heapBytes ht.string_heap →
        ht.Count ≤ ht2.Count →
        rowBytes ht2.block_collection + heapBytes ht2.string_heap + 24 * ht2.Count < 2 ^ 64 →
          ht.SizeInBytes rowBytes heapBytes ≤ ht2.SizeInBytes rowBytes heapBytes) ∧
      ht.SwizzledSize rowBytes heapBytes =
        (rowBytes ht.swizzled_block_collection + heapBytes ht.swizzled_string_heap) % 2 ^ 64 ∧
      (rowBytes ht.swizzled_block_collection + heapBytes ht.swizzled_string_heap < 2 ^ 64 →
        ht.SwizzledSize rowBytes heapBytes =
          rowBytes ht.swizzled_block_collection + heapBytes ht.swizzled_string_heap) ∧
      (ht2.swizzled_block_collection = ht.swizzled_block_collection →
        ht2.swizzled_string_heap = ht.swizzled_string_heap →
          ht2.SwizzledSize rowBytes heapBytes = ht.SwizzledSize rowBytes heapBytes) := by
  have hsize : ∀ t : JoinHashTable, t.SizeInBytes rowBytes heapBytes =
      (rowBytes t.block_collection + heapBytes t.string_heap + 24 * t.Count) % 2 ^ 64 := by
    intro t
    simp only [SizeInBytes, idx_t, sizeof_data_ptr_t]
    omega
  refine ⟨?_, hsize ht, ?_, ?_, rfl, ?_, ?_⟩
  · rw [hsize ht, sizeof_data_ptr_t]
    congr 1
    omega
  · intro hbound
    rw [hsize ht, Nat.mod_eq_of_lt hbound]
    refine ⟨rfl, by omega, by omega⟩
  · intro hrow hheap hcount hbound
    have hbound1 : rowBytes ht.block_collection + heapBytes ht.string_heap + 24 * ht.Count <
        2 ^ 64 := by
      rw [← hrow, ← hheap]
      omega
    rw [hsize ht, hsize ht2, Nat.mod_eq_of_lt hbound, Nat.mod_eq_of_lt hbound1, hrow, hheap]
    omega
  · intro hbound
    simp only [SwizzledSize, idx_t]
    exact Nat.mod_eq_of_lt hbound
  · intro hrow hheap
    simp only [SwizzledSize, hrow, hheap]

/-- Witness of C11: the example table stores two rows of 24 bytes and two bytes of text, so
its size is 48 + 2 + 2 * 24 = 98 bytes; a table whose `Count()` is 2^61 and whose storage
sizes are 0 has `SizeInBytes()` 0, the per-row term having wrapped around. -/
theorem C11_size_in_bytes_witness :
    exampleRowBytes exampleTable.block_collection + exampleHeapBytes exampleTable.string_heap +
        24 * exampleTable.Count < 2 ^ 64 ∧
      exampleTable.SizeInBytes exampleRowBytes exampleHeapBytes = 98 ∧
      exampleRowBytes exampleTable.block_collection +
        exampleHeapBytes exampleTable.string_heap ≤
          exampleTable.SizeInBytes exampleRowBytes exampleHeapBytes ∧
      exampleTable.SwizzledSize exampleRowBytes exampleHeapBytes = 0 ∧
      ({ exampleTable with block_collection := { count := 2 ^ 61, entries := [] } } :
        JoinHashTable).SizeInBytes (fun _ => 0) (fun _ => 0) = 0 :=
  have h := C11_size_in_bytes exampleRowBytes exampleHeapBytes exampleTable exampleTable
  ⟨by decide, (h.2.2.1 (by decide)).1.trans (by decide), (h.2.2.1 (by decide)).2.1,
    (h.2.2.2.2.2.1 (by decide)).trans (by decide),
    (C11_size_in_bytes (fun _ => 0) (fun _ => 0)
      { exampleTable with block_collection := { count := 2 ^ 61, entries := [] } }
      exampleTable).2.1.trans (by decide)⟩

end duckdb

/-! ## Theorems about bind_function_expression.cpp -/

namespace duckdb

section BinderTheorems

variable {σ : Type}

open ExpressionBinder

theorem callBindChild_state (env : Collaborators σ) (s : BinderState σ)
    (child : ParsedExpression) (depth : Nat) (error : String) :
    (callBindChild env s child depth error).1.trace =
      s.trace ++ [.BindChild child depth error] := rfl

theorem BindChildren_trace (env : Collaborators σ) (depth : Nat)
    (children : List ParsedExpression) :
    ∀ (error : String) (s : BinderState σ),
      ∃ evs : List Event,
        (BindChildren env depth children error s).1.trace = s.trace ++ evs ∧
          ∀ ev ∈ evs, ev.IsBindChild = true := by
  induction children with
  | nil => intro error s; exact ⟨[], by simp [BindChildren]⟩
  | cons child rest ih =>
    intro error s
    unfold BindChildren
    rcases hc : callBindChild env s child depth error with ⟨s1, child1, r⟩
    have hs1 : s1.trace = s.trace ++ [.BindChild child depth error] := by
      rw [← callBindChild_state env s child depth error, hc]
    cases r with
    | error e =>
      refine ⟨[.BindChild child depth error], ?_, ?_⟩
      · simpa using hs1
      · simp [Event.IsBindChild]
    | ok error1 =>
      obtain ⟨evs, h1, h2⟩ := ih error1 s1
      refine ⟨.BindChild child depth error :: evs, ?_, ?_⟩
      · simp only [h1, hs1, List.append_assoc, List.singleton_append]
      · intro ev hev
        rcases List.mem_cons.1 hev with h | h
        · subst h; rfl
        · exact h2 ev h

/-- Claim C2.  When the number of children is not two, `BindLambdaFunction` ends in the
`BinderException` "Invalid number of arguments, expected two (list, lambda expression)!";
it returns no `BindResult`, and the function expression (its children included), the
collaborators' state and the trace of collaborator calls are as before the call. -/
theorem C2_lambda_wrong_argument_count (env : Collaborators σ) (function : FunctionExpression)
    (func : CatalogEntry) (depth : Nat) (s : BinderState σ)
    (hsize : function.children.length ≠ 2) :
    (BindLambdaFunction env function func depth s).outcome =
        .BinderException "Invalid number of arguments, expected two (list, lambda expression)!" ∧
      (∀ r : BindResult, (BindLambdaFunction env function func depth s).outcome ≠ .returned r) ∧
      (BindLambdaFunction env function func depth s).function = function ∧
      (BindLambdaFunction env function func depth s).function.children = function.children ∧
      (BindLambdaFunction env function func depth s).state.trace = s.trace ∧
      (BindLambdaFunction env function func depth s).state.world = s.world := by
  unfold BindLambdaFunction
  simp [hsize]

end BinderTheorems

end duckdb

namespace duckdb

section BinderTheorems2

variable {σ : Type}

open ExpressionBinder

theorem BindExpression_scalar (env : Collaborators σ) (function : FunctionExpression)
    (depth : Nat) (s : BinderState σ) (w : σ) (func : CatalogEntry)
    (hunnest : function.function_name ≠ "unnest") (hunlist : function.function_name ≠ "unlist")
    (hget : env.GetEntry s.world function.schema function.function_name = (w, .ok func))
    (htype : func.type = .SCALAR_FUNCTION_ENTRY) :
    BindExpression env function depth s =
      if function.function_name ≠ "->>" ∧
          function.children.any (fun child => child.GetExpressionClass = .LAMBDA) then
        BindLambdaFunction env function func depth
          (s.record (.GetEntry function.schema function.function_name) w)
      else
        BindFunction env function func depth
          (s.record (.GetEntry function.schema function.function_name) w) := by
  unfold BindExpression
  simp only [hunnest, hunlist, or_self, if_false, callGetEntry, hget, htype]

/-- Claim C3.  For a function expression that the catalog resolves to a scalar function,
whose name is not "->>" and that has a lambda child, `BindExpression` ends in a
`BinderException` unless it has exactly two children of which the second is the lambda:
"Invalid number of arguments, expected two (list, lambda expression)!" when the number of
children is not two, "Invalid lambda expression!" when it is two (so the lambda is the first
child and the second is none).  The exception is thrown before any child is bound: the only
collaborator call is the catalog lookup and the function expression is unchanged. -/
theorem C3_invalid_lambda_shape (env : Collaborators σ) (function : FunctionExpression)
    (depth : Nat) (s : BinderState σ) (w : σ) (func : CatalogEntry)
    (hunnest : function.function_name ≠ "unnest") (hunlist : function.function_name ≠ "unlist")
    (hget : env.GetEntry s.world function.schema function.function_name = (w, .ok func))
    (htype : func.type = .SCALAR_FUNCTION_ENTRY)
    (harrow : function.function_name ≠ "->>")
    (hlambda : ∃ child ∈ function.children, child.GetExpressionClass = .LAMBDA)
    (hshape : ¬ (function.children.length = 2 ∧
      ∃ child1, function.children.get? 1 = some child1 ∧ child1.GetExpressionClass = .LAMBDA)) :
    (BindExpression env function depth s).outcome =
        .BinderException (if function.children.length ≠ 2 then
          "Invalid number of arguments, expected two (list, lambda expression)!"
        else "Invalid lambda expression!") ∧
      (BindExpression env function depth s).function = function ∧
      (BindExpression env function depth s).state.trace =
        s.trace ++ [.GetEntry function.schema function.function_name] ∧
      (BindExpression env function depth s).state.world = w := by
  have hany : function.children.any (fun child => child.GetExpressionClass = .LAMBDA) = true := by
    obtain ⟨child, hmem, hcls⟩ := hlambda
    exact List.any_eq_true.2 ⟨child, hmem, by simp [hcls]⟩
  rw [BindExpression_scalar env function depth s w func hunnest hunlist hget htype]
  rw [if_pos ⟨harrow, hany⟩]
  unfold BindLambdaFunction
  by_cases hsize : function.children.length ≠ 2
  · simp [hsize, BinderState.record]
  · have hlen : function.children.length = 2 := not_not.1 hsize
    obtain ⟨child0, child1, hch⟩ : ∃ child0 child1, function.children = [child0, child1] := by
      match hc : function.children, hlen with
      | [a, b], _ => exact ⟨a, b, rfl⟩
    have hnot : child1.GetExpressionClass ≠ .LAMBDA := by
      intro hcls
      exact hshape ⟨hlen, child1, by simp [hch], hcls⟩
    simp [hch, hnot, BinderState.record]

/-- Claim C6.  For a function expression named "unnest" or "unlist", `BindExpression` returns
what `BindUnnest` returns: the `BindResult` constructed from the error message that
`FormatError` makes of "UNNEST not supported here", which holds no expression; nothing is
thrown, and no collaborator is called (the catalog is not consulted), whatever the schema, the
children and the catalog are. -/
theorem C6_unnest_not_supported (env : Collaborators σ) (function : FunctionExpression)
    (depth : Nat) (s : BinderState σ)
    (hname : function.function_name = "unnest" ∨ function.function_name = "unlist") :
    BindExpression env function depth s = BindUnnest env function depth s ∧
      (BindExpression env function depth s).outcome =
        .returned (BindResult.ofError
          (env.FormatError s.world function "UNNEST not supported here")) ∧
      (∀ r, (BindExpression env function depth s).outcome = .returned r →
        r.expression = none ∧
          r.error = env.FormatError s.world function "UNNEST not supported here") ∧
      (BindExpression env function depth s).state.trace = s.trace ∧
      (BindExpression env function depth s).state.world = s.world ∧
      (BindExpression env function depth s).function = function := by
  have h : BindExpression env function depth s = BindUnnest env function depth s := by
    unfold BindExpression
    rw [if_pos hname]
  rw [h]
  refine ⟨rfl, rfl, ?_, rfl, rfl, rfl⟩
  intro r hr
  simp only [BindUnnest, Outcome.returned.injEq] at hr
  subst hr
  exact ⟨rfl, rfl⟩

/-- Claim C8.  When the catalog lookup of `BindExpression` yields a scalar function entry,
the call is `BindLambdaFunction` on that entry if the function name is not "->>" and some
child has expression class LAMBDA, and it is `BindFunction` on that entry otherwise; so a
"->>" call goes to `BindFunction` even with a lambda child, and so does a call without a
lambda child. -/
theorem C8_scalar_dispatch (env : Collaborators σ) (function : FunctionExpression)
    (depth : Nat) (s : BinderState σ) (w : σ) (func : CatalogEntry)
    (hunnest : function.function_name ≠ "unnest") (hunlist : function.function_name ≠ "unlist")
    (hget : env.GetEntry s.world function.schema function.function_name = (w, .ok func))
    (htype : func.type = .SCALAR_FUNCTION_ENTRY) :
    ((function.function_name ≠ "->>" ∧
        (∃ child ∈ function.children, child.GetExpressionClass = .LAMBDA)) →
      BindExpression env function depth s =
        BindLambdaFunction env function func depth
          (s.record (.GetEntry function.schema function.function_name) w)) ∧
    (¬ (function.function_name ≠ "->>" ∧
        (∃ child ∈ function.children, child.GetExpressionClass = .LAMBDA)) →
      BindExpression env function depth s =
        BindFunction env function func depth
          (s.record (.GetEntry function.schema function.function_name) w)) ∧
    (function.function_name = "->>" →
      BindExpression env function depth s =
        BindFunction env function func depth
          (s.record (.GetEntry function.schema function.function_name) w)) ∧
    ((∀ child ∈ function.children, child.GetExpressionClass ≠ .LAMBDA) →
      BindExpression env function depth s =
        BindFunction env function func depth
          (s.record (.GetEntry function.schema function.function_name) w)) := by
  have hany : function.children.any (fun child => child.GetExpressionClass = .LAMBDA) = true ↔
      ∃ child ∈ function.children, child.GetExpressionClass = .LAMBDA := by
    simp [List.any_eq_true]
  rw [BindExpression_scalar env function depth s w func hunnest hunlist hget htype]
  refine ⟨?_, ?_, ?_, ?_⟩
  · intro h
    rw [if_pos ⟨h.1, hany.2 h.2⟩]
  · intro h
    rw [if_neg (fun h2 => h ⟨h2.1, hany.1 h2.2⟩)]
  · intro h
    rw [if_neg (fun h2 => h2.1 h)]
  · intro h
    rw [if_neg]
    rintro ⟨_, h2⟩
    obtain ⟨child, hmem, hcls⟩ := hany.1 h2
    exact h child hmem hcls

end BinderTheorems2

end duckdb

namespace duckdb

section BinderTheorems3

variable {σ : Type}

open ExpressionBinder

theorem callIterateLambdaExprChildren_state (env : Collaborators σ) (s : BinderState σ)
    (children : List Expression) (t : LogicalType) (e : Expression) :
    (callIterateLambdaExprChildren env s children t e).1.trace =
      s.trace ++ [.IterateLambdaExprChildren children t e] := rfl

theorem callBindScalarFunction_state (env : Collaborators σ) (s : BinderState σ)
    (func : CatalogEntry) (children : List Expression) (error : String) (op : Bool) :
    (callBindScalarFunction env s func children error op).1.trace =
      s.trace ++ [.BindScalarFunction func children op] := rfl

theorem trace_append_two {α : Type} (l : List α) (a b : α) :
    (l ++ [a]) ++ [b] = l ++ [a, b] := by
  simp

theorem callBindLambda_state (env : Collaborators σ) (s : BinderState σ)
    (l : LambdaExpression) (depth : Nat) (t : LogicalType) :
    (callBindLambda env s l depth t).1.trace = s.trace ++ [.BindLambda l depth t] := rfl

theorem BindLambdaFunctionBound_trace (env : Collaborators σ) (function : FunctionExpression)
    (func : CatalogEntry) (error : String) (t : LogicalType) (n : Nat) (s : BinderState σ) :
    s.trace <+: (BindLambdaFunctionBound env function func error t n s).state.trace := by
  unfold BindLambdaFunctionBound
  split
  · exact List.prefix_refl _
  split
  · exact List.prefix_refl _
  split
  · exact List.prefix_refl _
  split
  · exact List.prefix_refl _
  rename_i children moved _ _ bound_lambda_expr _
  dsimp only
  rcases hit : callIterateLambdaExprChildren env s children.dropLast t bound_lambda_expr
    with ⟨s1, r⟩
  have h1 : s1.trace =
      s.trace ++ [.IterateLambdaExprChildren children.dropLast t bound_lambda_expr] := by
    rw [← callIterateLambdaExprChildren_state env s children.dropLast t bound_lambda_expr, hit]
  rcases r with e | ⟨children1, bound_lambda_expr1⟩
  · simp [h1]
  · dsimp only
    rcases hbs : callBindScalarFunction env s1 func
      (children1 ++ [{ bound_lambda_expr1 with alias_ := toString n }]) error
      function.is_operator with ⟨s2, r2⟩
    have h2 : s2.trace = s1.trace ++ [.BindScalarFunction func
        (children1 ++ [{ bound_lambda_expr1 with alias_ := toString n }])
        function.is_operator] := by
      rw [← callBindScalarFunction_state env s1 func _ error function.is_operator, hbs]
    rcases r2 with e | ⟨_ | result, error2⟩ <;> simp [hbs, h1, h2]

theorem BindLambdaFunction_list (env : Collaborators σ) (function : FunctionExpression)
    (func : CatalogEntry) (depth : Nat) (s : BinderState σ) (child0 : ParsedExpression)
    (lambda_expr : LambdaExpression) (w1 : σ) (alias0 : String) (list_child_expr : Expression)
    (t : LogicalType)
    (hchildren : function.children = [child0, .lambda lambda_expr])
    (hbind : env.BindChild s.world child0 depth "" =
      (w1, .bound alias0 (some list_child_expr), .ok ""))
    (ht : list_child_expr.return_type = .SQLNULL ∧ t = .SQLNULL ∨
      list_child_expr.return_type = .LIST t) :
    (s.trace ++ [.BindChild child0 depth "", .BindLambda lambda_expr depth t]) <+:
      (BindLambdaFunction env function func depth s).state.trace := by
  have hsel : (if list_child_expr.return_type.id ≠ .SQLNULL then
        ListType.GetChildType list_child_expr.return_type
      else some LogicalType.SQLNULL) = some t := by
    rcases ht with ⟨h, rfl⟩ | h <;> simp [h, LogicalType.id, ListType.GetChildType]
  have hid : ¬ (list_child_expr.return_type.id ≠ .LIST ∧
      list_child_expr.return_type.id ≠ .SQLNULL) := by
    rcases ht with ⟨h, _⟩ | h <;> simp [h, LogicalType.id]
  unfold BindLambdaFunction
  simp only [hchildren, List.length_cons, List.length_nil, ne_eq, not_true_eq_false, if_false,
    ParsedExpression.GetExpressionClass, callBindChild, hbind, hid, hsel, Nat.reduceAdd]
  have h0 : (s.record (.BindChild child0 depth "") w1).trace =
      s.trace ++ [.BindChild child0 depth ""] := rfl
  rcases hbl : callBindLambda env (s.record (.BindChild child0 depth "") w1) lambda_expr depth t
    with ⟨s2, lambda_expr1, r⟩
  have hs2 : s2.trace =
      s.trace ++ [.BindChild child0 depth "", .BindLambda lambda_expr depth t] := by
    rw [← trace_append_two]
    rw [← h0, ← callBindLambda_state env _ lambda_expr depth t, hbl]
  rcases r with e | bind_lambda_result
  · simp only [hs2, List.prefix_refl]
  · dsimp only
    rcases hrep : ReplaceLambda lambda_expr1 bind_lambda_result with _ | ⟨child1a, error1⟩
    · simp only [hs2, List.prefix_refl]
    · dsimp only
      rw [← hs2]
      exact BindLambdaFunctionBound_trace _ _ _ _ _ _ _

/-- Claim C7.  For a call with two children whose second child is a lambda and whose first
child has been bound without error to an expression of return type `T`:
`BindLambdaFunction` ends in the `BinderException` " Invalid LIST argument to <name>!",
having called no collaborator but `BindChild` on the first child, if and only if `T` is
neither LIST nor SQLNULL; when `T` is SQLNULL its next call binds the lambda against child
type SQLNULL, and when `T` is a LIST it binds the lambda against the child type of the list. -/
theorem C7_invalid_list_argument (env : Collaborators σ) (function : FunctionExpression)
    (func : CatalogEntry) (depth : Nat) (s : BinderState σ) (child0 : ParsedExpression)
    (lambda_expr : LambdaExpression) (w1 : σ) (alias0 : String) (list_child_expr : Expression)
    (hchildren : function.children = [child0, .lambda lambda_expr])
    (hbind : env.BindChild s.world child0 depth "" =
      (w1, .bound alias0 (some list_child_expr), .ok "")) :
    ((list_child_expr.return_type.id ≠ .LIST ∧ list_child_expr.return_type.id ≠ .SQLNULL) ↔
      ((BindLambdaFunction env function func depth s).outcome =
          .BinderException (" Invalid LIST argument to " ++ function.function_name ++ "!") ∧
        (BindLambdaFunction env function func depth s).state.trace =
          s.trace ++ [.BindChild child0 depth ""])) ∧
    (list_child_expr.return_type.id = .SQLNULL →
      (s.trace ++ [.BindChild child0 depth "", .BindLambda lambda_expr depth .SQLNULL]) <+:
        (BindLambdaFunction env function func depth s).state.trace) ∧
    (∀ child_type, list_child_expr.return_type = .LIST child_type →
      (s.trace ++ [.BindChild child0 depth "", .BindLambda lambda_expr depth child_type]) <+:
        (BindLambdaFunction env function func depth s).state.trace) := by
  have hnull : list_child_expr.return_type.id = .SQLNULL →
      (s.trace ++ [.BindChild child0 depth "", .BindLambda lambda_expr depth .SQLNULL]) <+:
        (BindLambdaFunction env function func depth s).state.trace := by
    intro h
    have hrt : list_child_expr.return_type = .SQLNULL := by
      cases hr : list_child_expr.return_type <;> simp [hr, LogicalType.id] at h ⊢
    exact BindLambdaFunction_list env function func depth s child0 lambda_expr w1 alias0
      list_child_expr .SQLNULL hchildren hbind (Or.inl ⟨hrt, rfl⟩)
  have hlist : ∀ child_type, list_child_expr.return_type = .LIST child_type →
      (s.trace ++ [.BindChild child0 depth "", .BindLambda lambda_expr depth child_type]) <+:
        (BindLambdaFunction env function func depth s).state.trace := by
    intro child_type h
    exact BindLambdaFunction_list env function func depth s child0 lambda_expr w1 alias0
      list_child_expr child_type hchildren hbind (Or.inr h)
  refine ⟨⟨?_, ?_⟩, hnull, hlist⟩
  · intro hid
    unfold BindLambdaFunction
    simp only [hchildren, List.length_cons, List.length_nil, ne_eq, not_true_eq_false, if_false,
      ParsedExpression.GetExpressionClass, callBindChild, hbind, Nat.reduceAdd]
    simp [hid, BinderState.record]
  · rintro ⟨_, htrace⟩
    by_contra hcon
    have hpre : ∃ t, (s.trace ++ [.BindChild child0 depth "", .BindLambda lambda_expr depth t]) <+:
        (BindLambdaFunction env function func depth s).state.trace := by
      cases hr : list_child_expr.return_type with
      | SQLNULL => exact ⟨_, hnull (by simp [hr, LogicalType.id])⟩
      | LIST child_type => exact ⟨_, hlist child_type hr⟩
      | BOOLEAN => exact absurd (by simp [hr, LogicalType.id]) hcon
      | INTEGER => exact absurd (by simp [hr, LogicalType.id]) hcon
      | VARCHAR => exact absurd (by simp [hr, LogicalType.id]) hcon
    obtain ⟨t, hp⟩ := hpre
    have hl := hp.length_le
    rw [htrace] at hl
    simp at hl

end BinderTheorems3

end duckdb

namespace duckdb

section BinderTheorems4

variable {σ : Type}

open ExpressionBinder

theorem BindFunction_of_children (env : Collaborators σ) (function : FunctionExpression)
    (func : CatalogEntry) (depth : Nat) (s s1 : BinderState σ)
    (children1 : List ParsedExpression) (error : String)
    (hbind : BindChildren env depth function.children "" s = (s1, children1, .ok error)) :
    BindFunction env function func depth s =
      if error ≠ "" then
        { outcome := .returned (BindResult.ofError error),
          function := { function with children := children1 }, state := s1 }
      else if env.GetBindingMode s1.world = .EXTRACT_NAMES then
        { outcome := .returned
            (BindResult.ofExpression (BoundConstantExpression (Value.ofType .SQLNULL))),
          function := { function with children := children1 }, state := s1 }
      else
        match ExtractChildren children1 with
        | none =>
          { outcome := .undefined, function := { function with children := children1 },
            state := s1 }
        | some (children, moved) =>
          match callBindScalarFunction env s1 func children error function.is_operator with
          | (s2, .error e) =>
            { outcome := .propagated e, function := { function with children := moved },
              state := s2 }
          | (s2, .ok (none, error2)) =>
            { outcome := .BinderException
                (env.FormatError s2.world { function with children := moved } error2),
              function := { function with children := moved }, state := s2 }
          | (s2, .ok (some result, _)) =>
            { outcome := .returned (BindResult.ofExpression result),
              function := { function with children := moved }, state := s2 } := by
  unfold BindFunction
  rw [hbind]

/-- Claim C9.  If the loop that binds the children of a function expression ends with a
non-empty error string, `BindFunction` returns the error `BindResult` that carries exactly
that string, in every binding mode; nothing is thrown and the only collaborator calls are the
`BindChild` calls, so `BindScalarFunction` is not called.  And whenever `BindFunction` ends in
a `BinderException` of its own, the children were bound with an empty error string, the
binding mode is not EXTRACT_NAMES, and `BindScalarFunction` returned no result; the message is
the formatted error of `BindScalarFunction`.  Any other exception that leaves `BindFunction`
was raised inside `BindChild` or inside `BindScalarFunction`. -/
theorem C9_bind_function_error_paths (env : Collaborators σ) (function : FunctionExpression)
    (func : CatalogEntry) (depth : Nat) (s : BinderState σ) :
    (∀ (s1 : BinderState σ) (children1 : List ParsedExpression) (error : String),
      BindChildren env depth function.children "" s = (s1, children1, .ok error) →
      error ≠ "" →
        BindFunction env function func depth s =
            { outcome := .returned (BindResult.ofError error),
              function := { function with children := children1 }, state := s1 } ∧
          (BindResult.ofError error).HasError = true ∧
          ∃ evs : List Event,
            (BindFunction env function func depth s).state.trace = s.trace ++ evs ∧
              ∀ ev ∈ evs, ev.IsBindChild = true ∧ ev.IsBindScalarFunction = false) ∧
    (∀ msg : String,
      (BindFunction env function func depth s).outcome = .BinderException msg →
        ∃ (s1 : BinderState σ) (children1 moved : List ParsedExpression)
          (children : List Expression) (w2 : σ) (error2 : String),
          BindChildren env depth function.children "" s = (s1, children1, .ok "") ∧
            env.GetBindingMode s1.world ≠ .EXTRACT_NAMES ∧
            ExtractChildren children1 = some (children, moved) ∧
            env.BindScalarFunction s1.world func children "" function.is_operator =
              (w2, .ok (none, error2)) ∧
            msg = env.FormatError w2 { function with children := moved } error2) ∧
    (∀ e : ForeignException,
      (BindFunction env function func depth s).outcome = .propagated e →
        (∃ (s1 : BinderState σ) (children1 : List ParsedExpression),
          BindChildren env depth function.children "" s = (s1, children1, .error e)) ∨
        (∃ (s1 : BinderState σ) (children1 moved : List ParsedExpression)
          (children : List Expression) (w2 : σ),
          BindChildren env depth function.children "" s = (s1, children1, .ok "") ∧
            ExtractChildren children1 = some (children, moved) ∧
            env.BindScalarFunction s1.world func children "" function.is_operator =
              (w2, .error e))) := by
  refine ⟨?_, ?_, ?_⟩
  · intro s1 children1 error hbind herr
    have hrun := BindFunction_of_children env function func depth s s1 children1 error hbind
    rw [if_pos herr] at hrun
    refine ⟨hrun, ?_, ?_⟩
    · simpa [BindResult.HasError, BindResult.ofError] using herr
    · obtain ⟨evs, h1, h2⟩ := BindChildren_trace env depth function.children "" s
      rw [hbind] at h1
      refine ⟨evs, by rw [hrun]; exact h1, ?_⟩
      intro ev hev
      have hb := h2 ev hev
      refine ⟨hb, ?_⟩
      cases ev <;> simp_all [Event.IsBindChild, Event.IsBindScalarFunction]
  · intro msg hmsg
    rcases hbind : BindChildren env depth function.children "" s with ⟨s1, children1, r⟩
    rcases r with e | error
    · unfold BindFunction at hmsg
      rw [hbind] at hmsg
      simp at hmsg
    · rw [BindFunction_of_children env function func depth s s1 children1 error hbind] at hmsg
      by_cases herr : error ≠ ""
      · rw [if_pos herr] at hmsg
        simp at hmsg
      · rw [if_neg herr] at hmsg
        have herr0 : error = "" := not_not.1 herr
        subst herr0
        by_cases hmode : env.GetBindingMode s1.world = .EXTRACT_NAMES
        · rw [if_pos hmode] at hmsg
          simp at hmsg
        · rw [if_neg hmode] at hmsg
          rcases hext : ExtractChildren children1 with _ | ⟨children, moved⟩
          · rw [hext] at hmsg
            simp at hmsg
          · rw [hext] at hmsg
            dsimp only at hmsg
            rcases hbs : env.BindScalarFunction s1.world func children "" function.is_operator
              with ⟨w2, r2⟩
            rcases r2 with e | ⟨_ | result, error2⟩
            · simp [callBindScalarFunction, hbs] at hmsg
            · simp only [callBindScalarFunction, hbs, Outcome.BinderException.injEq,
                BinderState.record] at hmsg
              exact ⟨s1, children1, moved, children, w2, error2, rfl, hmode, hext, hbs, hmsg.symm⟩
            · simp [callBindScalarFunction, hbs] at hmsg
  · intro e0 hprop
    rcases hbind : BindChildren env depth function.children "" s with ⟨s1, children1, r⟩
    rcases r with e | error
    · unfold BindFunction at hprop
      rw [hbind] at hprop
      simp only [Outcome.propagated.injEq] at hprop
      subst hprop
      exact Or.inl ⟨s1, children1, rfl⟩
    · rw [BindFunction_of_children env function func depth s s1 children1 error hbind] at hprop
      by_cases herr : error ≠ ""
      · rw [if_pos herr] at hprop
        simp at hprop
      · rw [if_neg herr] at hprop
        have herr0 : error = "" := not_not.1 herr
        subst herr0
        by_cases hmode : env.GetBindingMode s1.world = .EXTRACT_NAMES
        · rw [if_pos hmode] at hprop
          simp at hprop
        · rw [if_neg hmode] at hprop
          rcases hext : ExtractChildren children1 with _ | ⟨children, moved⟩
          · rw [hext] at hprop
            simp at hprop
          · rw [hext] at hprop
            dsimp only at hprop
            rcases hbs : env.BindScalarFunction s1.world func children "" function.is_operator
              with ⟨w2, r2⟩
            rcases r2 with e | ⟨_ | result, error2⟩
            · simp only [callBindScalarFunction, hbs, Outcome.propagated.injEq,
                BinderState.record] at hprop
              subst hprop
              exact Or.inr ⟨s1, children1, moved, children, w2, rfl, hext, hbs⟩
            · simp [callBindScalarFunction, hbs] at hprop
            · simp [callBindScalarFunction, hbs] at hprop

theorem BindLambdaFunctionBound_extract_names (env : Collaborators σ)
    (function : FunctionExpression) (func : CatalogEntry) (error : String) (t : LogicalType)
    (n : Nat) (s : BinderState σ)
    (hmode : env.GetBindingMode s.world = .EXTRACT_NAMES) :
    BindLambdaFunctionBound env function func error t n s =
      if error ≠ "" then
        { outcome := .returned (BindResult.ofError error), function := function, state := s }
      else
        { outcome := .returned
            (BindResult.ofExpression (BoundConstantExpression (Value.ofType .SQLNULL))),
          function := function, state := s } := by
  unfold BindLambdaFunctionBound
  simp only [hmode, if_true]

end BinderTheorems4

end duckdb

namespace duckdb

section BinderTheorems5

variable {σ : Type}

open ExpressionBinder

theorem BindLambdaFunction_extract_names (env : Collaborators σ)
    (function : FunctionExpression) (func : CatalogEntry) (depth : Nat) (s : BinderState σ)
    (hmode : ∀ w, env.GetBindingMode w = .EXTRACT_NAMES) :
    ∃ evs : List Event,
      (BindLambdaFunction env function func depth s).state.trace = s.trace ++ evs ∧
        (∀ ev ∈ evs, ev.IsBindScalarFunction = false) ∧
        ∀ msg : String,
          (BindLambdaFunction env function func depth s).outcome = .BinderException msg →
            msg = "Invalid number of arguments, expected two (list, lambda expression)!" ∨
              msg = "Invalid lambda expression!" ∨
              msg = " Invalid LIST argument to " ++ function.function_name ++ "!" := by
  unfold BindLambdaFunction
  by_cases hsize : function.children.length ≠ 2
  · rw [if_pos hsize]
    exact ⟨[], by simp, by simp, by simp⟩
  rw [if_neg hsize]
  obtain ⟨child0, child1, hch⟩ : ∃ child0 child1, function.children = [child0, child1] := by
    match hc : function.children, not_not.1 hsize with
    | [a, b], _ => exact ⟨a, b, rfl⟩
  simp only [hch]
  by_cases hcls : child1.GetExpressionClass ≠ .LAMBDA
  · rw [if_pos hcls]
    exact ⟨[], by simp, by simp, by simp⟩
  rw [if_neg hcls]
  rcases hbc : env.BindChild s.world child0 depth "" with ⟨w1, child0a, r⟩
  simp only [callBindChild, hbc]
  rcases r with e | error
  · exact ⟨[.BindChild child0 depth ""], rfl, by simp [Event.IsBindScalarFunction], by simp⟩
  dsimp only
  by_cases herr : error ≠ ""
  · rw [if_pos herr]
    exact ⟨[.BindChild child0 depth ""], rfl, by simp [Event.IsBindScalarFunction], by simp⟩
  rw [if_neg herr]
  rcases child0a with l | ⟨alias0, _ | list_child_expr⟩ | ⟨cls, a, i⟩
  · exact ⟨[.BindChild child0 depth ""], rfl, by simp [Event.IsBindScalarFunction], by simp⟩
  · exact ⟨[.BindChild child0 depth ""], rfl, by simp [Event.IsBindScalarFunction], by simp⟩
  · dsimp only
    by_cases hid : list_child_expr.return_type.id ≠ .LIST ∧
        list_child_expr.return_type.id ≠ .SQLNULL
    · rw [if_pos hid]
      exact ⟨[.BindChild child0 depth ""], rfl, by simp [Event.IsBindScalarFunction], by simp⟩
    rw [if_neg hid]
    rcases hsel : (if list_child_expr.return_type.id ≠ .SQLNULL then
        ListType.GetChildType list_child_expr.return_type
      else some LogicalType.SQLNULL) with _ | t
    · exact ⟨[.BindChild child0 depth ""], rfl, by simp [Event.IsBindScalarFunction], by simp⟩
    rcases child1 with lambda_expr | ⟨a1, e1⟩ | ⟨cls, a, i⟩
    · dsimp only
      rcases hbl : env.BindLambda w1 lambda_expr depth t with ⟨w2, lambda_expr1, r2⟩
      simp only [callBindLambda, BinderState.record, hbl]
      rcases r2 with e | bind_lambda_result
      · exact ⟨[.BindChild child0 depth "", .BindLambda lambda_expr depth t],
          by simp [BinderState.record], by simp [Event.IsBindScalarFunction], by simp⟩
      dsimp only
      rcases hrep : ReplaceLambda lambda_expr1 bind_lambda_result with _ | ⟨child1a, error1⟩
      · exact ⟨[.BindChild child0 depth "", .BindLambda lambda_expr depth t],
          by simp [BinderState.record], by simp [Event.IsBindScalarFunction], by simp⟩
      dsimp only
      rw [BindLambdaFunctionBound_extract_names _ _ _ _ _ _ _ (hmode _)]
      refine ⟨[.BindChild child0 depth "", .BindLambda lambda_expr depth t], ?_,
        by simp [Event.IsBindScalarFunction], ?_⟩
      · split <;> simp [BinderState.record]
      · split <;> simp
    · exact ⟨[.BindChild child0 depth ""], rfl, by simp [Event.IsBindScalarFunction], by simp⟩
    · exact ⟨[.BindChild child0 depth ""], rfl, by simp [Event.IsBindScalarFunction], by simp⟩
  · exact ⟨[.BindChild child0 depth ""], rfl, by simp [Event.IsBindScalarFunction], by simp⟩

/-- Claim C10.  In binding mode EXTRACT_NAMES: when the children of a function expression are
bound with an empty error string, `BindFunction` returns the successful `BindResult` holding
the constant expression of value NULL of type SQLNULL, whatever the catalog entry is; so does
`BindLambdaFunction` for a two-child call whose second child is a lambda, whose first child is
bound without error to a LIST or SQLNULL expression and whose lambda is bound successfully;
and for every input neither function calls `BindScalarFunction`, `BindFunction` ends in no
`BinderException` at all and `BindLambdaFunction` only in those of its shape and LIST-type
checks. -/
theorem C10_extract_names_returns_null_constant (env : Collaborators σ)
    (function : FunctionExpression) (func : CatalogEntry) (depth : Nat) (s : BinderState σ)
    (hmode : ∀ w, env.GetBindingMode w = .EXTRACT_NAMES) :
    (∀ (s1 : BinderState σ) (children1 : List ParsedExpression),
      BindChildren env depth function.children "" s = (s1, children1, .ok "") →
        BindFunction env function func depth s =
          { outcome := .returned
              (BindResult.ofExpression (BoundConstantExpression (Value.ofType .SQLNULL))),
            function := { function with children := children1 }, state := s1 }) ∧
    (∀ (child0 : ParsedExpression) (lambda_expr lambda_expr1 : LambdaExpression) (w1 w2 : σ)
      (alias0 : String) (list_child_expr expr : Expression) (t : LogicalType)
      (bind_lambda_result : BindResult),
      function.children = [child0, .lambda lambda_expr] →
      env.BindChild s.world child0 depth "" =
        (w1, .bound alias0 (some list_child_expr), .ok "") →
      (list_child_expr.return_type = .SQLNULL ∧ t = .SQLNULL ∨
        list_child_expr.return_type = .LIST t) →
      env.BindLambda w1 lambda_expr depth t = (w2, lambda_expr1, .ok bind_lambda_result) →
      bind_lambda_result.HasError = false →
      bind_lambda_result.expression = some expr →
        (BindLambdaFunction env function func depth s).outcome =
          .returned (BindResult.ofExpression (BoundConstantExpression (Value.ofType .SQLNULL)))) ∧
    (BindResult.ofExpression (BoundConstantExpression (Value.ofType .SQLNULL))).HasError = false ∧
    (∃ evs : List Event,
      (BindFunction env function func depth s).state.trace = s.trace ++ evs ∧
        ∀ ev ∈ evs, ev.IsBindScalarFunction = false) ∧
    (∀ msg : String, (BindFunction env function func depth s).outcome ≠ .BinderException msg) ∧
    (∃ evs : List Event,
      (BindLambdaFunction env function func depth s).state.trace = s.trace ++ evs ∧
        (∀ ev ∈ evs, ev.IsBindScalarFunction = false) ∧
        ∀ msg : String,
          (BindLambdaFunction env function func depth s).outcome = .BinderException msg →
            msg = "Invalid number of arguments, expected two (list, lambda expression)!" ∨
              msg = "Invalid lambda expression!" ∨
              msg = " Invalid LIST argument to " ++ function.function_name ++ "!") := by
  have hfun : (BindFunction env function func depth s).state =
        (BindChildren env depth function.children "" s).1 ∧
      ∀ msg : String, (BindFunction env function func depth s).outcome ≠ .BinderException msg := by
    rcases hbind : BindChildren env depth function.children "" s with ⟨s1, children1, r⟩
    rcases r with e | error
    · unfold BindFunction
      rw [hbind]
      exact ⟨rfl, by simp⟩
    · rw [BindFunction_of_children env function func depth s s1 children1 error hbind]
      by_cases herr : error ≠ ""
      · rw [if_pos herr]
        exact ⟨rfl, by simp⟩
      · rw [if_neg herr, if_pos (hmode _)]
        exact ⟨rfl, by simp⟩
  refine ⟨?_, ?_, rfl, ?_, hfun.2, BindLambdaFunction_extract_names env function func depth s hmode⟩
  · intro s1 children1 hbind
    rw [BindFunction_of_children env function func depth s s1 children1 "" hbind]
    rw [if_neg (by simp), if_pos (hmode _)]
  · intro child0 lambda_expr lambda_expr1 w1 w2 alias0 list_child_expr expr t bind_lambda_result
      hchildren hbind ht hlambda hok hexpr
    have hsel : (if list_child_expr.return_type.id ≠ .SQLNULL then
          ListType.GetChildType list_child_expr.return_type
        else some LogicalType.SQLNULL) = some t := by
      rcases ht with ⟨h, rfl⟩ | h <;> simp [h, LogicalType.id, ListType.GetChildType]
    have hid : ¬ (list_child_expr.return_type.id ≠ .LIST ∧
        list_child_expr.return_type.id ≠ .SQLNULL) := by
      rcases ht with ⟨h, _⟩ | h <;> simp [h, LogicalType.id]
    have hrep : ReplaceLambda lambda_expr1 bind_lambda_result =
        some (.bound lambda_expr1.alias_ (some (if lambda_expr1.alias_ ≠ "" then
          { expr with alias_ := lambda_expr1.alias_ } else expr)), "") := by
      simp [ReplaceLambda, hok, hexpr]
    unfold BindLambdaFunction
    simp only [hchildren, List.length_cons, List.length_nil, ne_eq, not_true_eq_false, if_false,
      ParsedExpression.GetExpressionClass, callBindChild, hbind, hid, hsel, Nat.reduceAdd,
      callBindLambda, BinderState.record, hlambda, hrep]
    rw [BindLambdaFunctionBound_extract_names _ _ _ _ _ _ _ (hmode _)]
    simp
  · obtain ⟨evs, h1, h2⟩ := BindChildren_trace env depth function.children "" s
    refine ⟨evs, by rw [hfun.1]; exact h1, ?_⟩
    intro ev hev
    have hb := h2 ev hev
    cases ev <;> simp_all [Event.IsBindChild, Event.IsBindScalarFunction]

end BinderTheorems5

end duckdb

namespace duckdb

open ExpressionBinder

/-- Witness of C2: `list_transform(x -> x)` has one child. -/
theorem C2_lambda_wrong_argument_count_witness :
    (exampleCall "list_transform" [.lambda exampleLambda]).children.length ≠ 2 ∧
      (BindLambdaFunction exampleCollaborators
        (exampleCall "list_transform" [.lambda exampleLambda]) exampleEntry 0
        exampleState).outcome =
          .BinderException "Invalid number of arguments, expected two (list, lambda expression)!" ∧
      (BindLambdaFunction exampleCollaborators
        (exampleCall "list_transform" [.lambda exampleLambda]) exampleEntry 0
        exampleState).function = exampleCall "list_transform" [.lambda exampleLambda] :=
  have h := C2_lambda_wrong_argument_count exampleCollaborators
    (exampleCall "list_transform" [.lambda exampleLambda]) exampleEntry 0 exampleState
    (by decide)
  ⟨by decide, h.1, h.2.2.1⟩

/-- Witness of C3: `list_transform(x -> x, 1)` has its lambda first and a constant second. -/
theorem C3_invalid_lambda_shape_witness :
    (BindExpression exampleCollaborators
      (exampleCall "list_transform" [.lambda exampleLambda, .plain .CONSTANT "" 1]) 0
      exampleState).outcome = .BinderException "Invalid lambda expression!" ∧
    (BindExpression exampleCollaborators
      (exampleCall "list_transform" [.lambda exampleLambda, .plain .CONSTANT "" 1]) 0
      exampleState).state.trace = [.GetEntry "main" "list_transform"] :=
  have h := C3_invalid_lambda_shape exampleCollaborators
    (exampleCall "list_transform" [.lambda exampleLambda, .plain .CONSTANT "" 1]) 0
    exampleState () exampleEntry (by decide) (by decide) rfl rfl (by decide)
    ⟨.lambda exampleLambda, List.Mem.head _, rfl⟩
    (by
      rintro ⟨_, child1, h1, h2⟩
      have h3 : child1 = .plain .CONSTANT "" 1 := by
        simpa [exampleCall] using h1.symm
      subst h3
      exact absurd h2 (by decide))
  ⟨h.1, h.2.2.1⟩

/-- Witness of C6: `unnest(1)` is answered without a catalog lookup. -/
theorem C6_unnest_not_supported_witness :
    (BindExpression exampleCollaborators (exampleCall "unnest" [.plain .CONSTANT "" 1]) 0
      exampleState).outcome = .returned (BindResult.ofError "UNNEST not supported here") ∧
    (BindExpression exampleCollaborators (exampleCall "unnest" [.plain .CONSTANT "" 1]) 0
      exampleState).state.trace = [] :=
  have h := C6_unnest_not_supported exampleCollaborators
    (exampleCall "unnest" [.plain .CONSTANT "" 1]) 0 exampleState (Or.inl rfl)
  ⟨h.2.1, h.2.2.2.1⟩

/-- Witness of C7: `list_transform(1, x -> x)` has an INTEGER first argument and is rejected;
`list_transform(<list>, x -> x)` has a LIST(INTEGER) first argument and its lambda is bound
against INTEGER. -/
theorem C7_invalid_list_argument_witness :
    (BindLambdaFunction exampleCollaborators
      (exampleCall "list_transform" [.plain .CONSTANT "" 1, .lambda exampleLambda]) exampleEntry 0
      exampleState).outcome =
        .BinderException (" Invalid LIST argument to " ++ "list_transform" ++ "!") ∧
    ([.BindChild (.plain .OPERATOR "" 2) 0 "", .BindLambda exampleLambda 0 .INTEGER] <+:
      (BindLambdaFunction exampleCollaborators
        (exampleCall "list_transform" [.plain .OPERATOR "" 2, .lambda exampleLambda]) exampleEntry
        0 exampleState).state.trace) :=
  have h1 := C7_invalid_list_argument exampleCollaborators
    (exampleCall "list_transform" [.plain .CONSTANT "" 1, .lambda exampleLambda]) exampleEntry 0
    exampleState (.plain .CONSTANT "" 1) exampleLambda () ""
    { return_type := .INTEGER, alias_ := "", value := none, ident := 1 } rfl rfl
  have h2 := C7_invalid_list_argument exampleCollaborators
    (exampleCall "list_transform" [.plain .OPERATOR "" 2, .lambda exampleLambda]) exampleEntry 0
    exampleState (.plain .OPERATOR "" 2) exampleLambda () ""
    { return_type := .LIST .INTEGER, alias_ := "", value := none, ident := 2 } rfl rfl
  ⟨(h1.1.1 ⟨by decide, by decide⟩).1, h2.2.2 .INTEGER rfl⟩

/-- Witness of C8: with a lambda child, `list_transform` goes to `BindLambdaFunction` and
`->>` goes to `BindFunction`. -/
theorem C8_scalar_dispatch_witness :
    BindExpression exampleCollaborators
        (exampleCall "list_transform" [.plain .OPERATOR "" 2, .lambda exampleLambda]) 0
        exampleState =
      BindLambdaFunction exampleCollaborators
        (exampleCall "list_transform" [.plain .OPERATOR "" 2, .lambda exampleLambda])
        exampleEntry 0 (exampleState.record (.GetEntry "main" "list_transform") ()) ∧
    BindExpression exampleCollaborators
        (exampleCall "->>" [.plain .OPERATOR "" 2, .lambda exampleLambda]) 0 exampleState =
      BindFunction exampleCollaborators
        (exampleCall "->>" [.plain .OPERATOR "" 2, .lambda exampleLambda])
        { type := .SCALAR_FUNCTION_ENTRY, name := "->>", ident := 0 } 0
        (exampleState.record (.GetEntry "main" "->>") ()) :=
  have h1 := C8_scalar_dispatch exampleCollaborators
    (exampleCall "list_transform" [.plain .OPERATOR "" 2, .lambda exampleLambda]) 0
    exampleState () exampleEntry (by decide) (by decide) rfl rfl
  have h2 := C8_scalar_dispatch exampleCollaborators
    (exampleCall "->>" [.plain .OPERATOR "" 2, .lambda exampleLambda]) 0
    exampleState () { type := .SCALAR_FUNCTION_ENTRY, name := "->>", ident := 0 }
    (by decide) (by decide) rfl rfl
  ⟨h1.1 ⟨by decide, .lambda exampleLambda, List.Mem.tail _ (List.Mem.head _), rfl⟩,
    h2.2.2.1 rfl⟩

/-- Witness of C9: `abs(c)` with an unknown column returns the error of the child; `abs(1)`
binds its child and throws because overload resolution returns no result. -/
theorem C9_bind_function_error_paths_witness :
    BindFunction exampleCollaborators (exampleCall "abs" [.plain .COLUMN_REF "" 3]) exampleEntry
        0 exampleState =
      { outcome := .returned (BindResult.ofError "column not found"),
        function := exampleCall "abs" [.plain .COLUMN_REF "" 3],
        state := { world := (), trace := [.BindChild (.plain .COLUMN_REF "" 3) 0 ""] } } ∧
    (BindFunction exampleCollaborators (exampleCall "abs" [.plain .CONSTANT "" 1]) exampleEntry
        0 exampleState).outcome = .BinderException "No function matches" ∧
    (∃ (s1 : BinderState Unit) (children1 : List ParsedExpression),
      BindChildren exampleCollaborators 0 (exampleCall "abs" [.plain .CONSTANT "" 1]).children
        "" exampleState = (s1, children1, .ok "") ∧
      exampleCollaborators.GetBindingMode s1.world ≠ .EXTRACT_NAMES) :=
  have h := C9_bind_function_error_paths exampleCollaborators
    (exampleCall "abs" [.plain .COLUMN_REF "" 3]) exampleEntry 0 exampleState
  have h2 := C9_bind_function_error_paths exampleCollaborators
    (exampleCall "abs" [.plain .CONSTANT "" 1]) exampleEntry 0 exampleState
  ⟨(h.1 { world := (), trace := [.BindChild (.plain .COLUMN_REF "" 3) 0 ""] }
      [.plain .COLUMN_REF "" 3] "column not found" rfl (by decide)).1,
    rfl,
    match h2.2.1 "No function matches" rfl with
    | ⟨s1, children1, _, _, _, _, hb, hm, _⟩ => ⟨s1, children1, hb, hm⟩⟩

/-- Witness of C10: in mode EXTRACT_NAMES, `abs(1)` and `list_transform(<list>, x -> x)` are
bound to the NULL constant. -/
theorem C10_extract_names_returns_null_constant_witness :
    (∀ w, exampleExtractNames.GetBindingMode w = .EXTRACT_NAMES) ∧
    (BindFunction exampleExtractNames (exampleCall "abs" [.plain .CONSTANT "" 1]) exampleEntry 0
      exampleState).outcome =
        .returned (BindResult.ofExpression (BoundConstantExpression (Value.ofType .SQLNULL))) ∧
    (BindLambdaFunction exampleExtractNames
      (exampleCall "list_transform" [.plain .OPERATOR "" 2, .lambda exampleLambda]) exampleEntry
      0 exampleState).outcome =
        .returned (BindResult.ofExpression (BoundConstantExpression (Value.ofType .SQLNULL))) :=
  have h1 := C10_extract_names_returns_null_constant exampleExtractNames
    (exampleCall "abs" [.plain .CONSTANT "" 1]) exampleEntry 0 exampleState (fun _ => rfl)
  have h2 := C10_extract_names_returns_null_constant exampleExtractNames
    (exampleCall "list_transform" [.plain .OPERATOR "" 2, .lambda exampleLambda]) exampleEntry 0
    exampleState (fun _ => rfl)
  ⟨fun _ => rfl,
    congrArg Run.outcome (h1.1 _ _ rfl),
    h2.2.1 (.plain .OPERATOR "" 2) exampleLambda exampleLambda () () ""
      { return_type := .LIST .INTEGER, alias_ := "", value := none, ident := 2 }
      { return_type := .INTEGER, alias_ := "", value := none, ident := 7 } .INTEGER
      (BindResult.ofExpression
        { return_type := .INTEGER, alias_ := "", value := none, ident := 7 })
      rfl rfl (Or.inr rfl) rfl rfl rfl⟩

end duckdb
